import Mathlib

set_option maxHeartbeats 1000000

/-!
Shallow embedding of the manual freight rate engine of the digitalLogistics
backend (`src/rates/manual-rate-engine.service.ts`, class
`ManualRateEngineService`), together with the request/response DTOs
(`dto/manual-quote-request.dto.ts`, `dto/manual-quote-response.dto.ts`).

Modelling conventions:
* JavaScript numbers are modelled as exact rationals (`ℚ`); `NaN` produced by
  `Number(undefined)` or invalid dimensions is modelled by `Option ℚ = none`.
* `undefined` / absent object fields are `Option.none`; the nullish
  coalescing operator `??` is `Option.orElse`; JS truthiness of strings is
  non-emptiness and of numbers is being nonzero.
* The module-level mutable `distanceCache` (a `Map` with TTL) is modelled as
  an association list passed in and returned by `estimate`; `Date.now()` is
  an explicit `now : ℤ` parameter (milliseconds).
* The asynchronous provider chain `resolveDistanceKm` (LocationIQ /
  OpenRoute / haversine / heuristic — network I/O) is abstracted as a
  function parameter `resolve : ManualQuoteRequestDto → Option ResolvedDistance`.
* `envNumber(name, fallback)` configuration reads are collected in a
  `Config` structure whose field defaults are the hardcoded fallbacks;
  `defaultConfig` is the engine run with no environment overrides.
* The regular expressions of the source are hand-compiled to executable
  matchers over `List Char` (word boundaries `\b`, `\s*`/`\s+` gaps, lazy
  captures and alternation order are reproduced; all texts are lowercased
  before matching exactly as in the source, so the `/i` flags are moot).
* Human-readable assumption strings are reproduced structurally; numeric
  interpolations (JS number formatting, `toLocaleString`, the `₦` sign) are
  rendered with Lean's `toString` on rationals.  No claim inspects the text
  of an assumption string.
-/

/-- `Math.round` as JavaScript defines it: half-values round toward `+∞`.
(`Rat.floor` is definitionally `⌊·⌋` on `ℚ` but reduces in the kernel.) -/
def jsRound (q : ℚ) : ℤ := Rat.floor (q + 1/2)

/-- `jsRound` as an `Int.floor`. -/
theorem jsRound_eq_floor (q : ℚ) : jsRound q = ⌊q + 1/2⌋ := rfl

/-- `round2` of the source: `Math.round(n * 100) / 100`. -/
def round2 (n : ℚ) : ℚ := (jsRound (n * 100) : ℚ) / 100

/-- The `Money['currency']` type of the response DTO: the single fixed
local currency. -/
inductive Currency where
  | NGN
deriving DecidableEq, Repr

/-- The `Money` shape of the response DTO. -/
structure Money where
  amount : ℚ
  currency : Currency
deriving DecidableEq, Repr

/-- `money(amount, currency)` of the source: round to 2 decimals at output
construction. -/
def money (amount : ℚ) (currency : Currency) : Money :=
  { amount := round2 amount, currency := currency }

/-- `ManualMode` of the request DTO. -/
inductive ManualMode where
  | parcel
  | air
  | ocean
  | ground
deriving DecidableEq, Repr

/-- `ManualContainerType` of the request DTO (`'20ft' | '40ft' | '40hc'`). -/
inductive ManualContainerType where
  | c20ft
  | c40ft
  | c40hc
deriving DecidableEq, Repr

/-- `Region` of the source. -/
inductive Region where
  | nigeria
  | africa
  | asia
  | middleeast
  | europe
  | usa
  | unknown
deriving DecidableEq, Repr

/-- `DimensionsCmDto`. -/
structure DimensionsCm where
  length : ℚ
  width : ℚ
  height : ℚ
deriving DecidableEq, Repr

/-- `LatLngDto`. -/
structure LatLng where
  lat : ℚ
  lng : ℚ
deriving DecidableEq, Repr

/-- `ManualQuoteRequestDto`: every field optional. -/
structure ManualQuoteRequestDto where
  freeText : Option String := none
  mode : Option ManualMode := none
  origin : Option String := none
  destination : Option String := none
  weightKg : Option ℚ := none
  dimensionsCm : Option DimensionsCm := none
  volumeCbm : Option ℚ := none
  containerType : Option ManualContainerType := none
  distanceKm : Option ℚ := none
  start : Option LatLng := none
  endPt : Option LatLng := none
  isExpress : Option Bool := none
  detentionDemurrageDays : Option ℚ := none
deriving DecidableEq, Repr

/-- `ManualQuoteStatus` of the response DTO. -/
inductive ManualQuoteStatus where
  | ok
  | needs_clarification
  | error
deriving DecidableEq, Repr

/-- `ManualQuoteBreakdown` of the response DTO. -/
structure ManualQuoteBreakdown where
  base : Money
  surcharges : Money
  margin : Money
  total : Money
  assumptions : List String
deriving DecidableEq, Repr

/-- The `quote` payload of the response DTO. -/
structure ManualQuote where
  provider : String := "manual-rate-engine"
  mode : ManualMode
  origin : Option String
  destination : Option String
  chargeableWeightKg : Option ℚ := none
  breakdown : ManualQuoteBreakdown
deriving DecidableEq, Repr

/-- `ManualQuoteResponseDto`. -/
structure ManualQuoteResponseDto where
  status : ManualQuoteStatus
  message : Option String := none
  missingFields : Option (List String) := none
  quote : Option ManualQuote := none
deriving DecidableEq, Repr

/-- One entry of the module-level `distanceCache` map. -/
structure CacheEntry where
  distanceKm : ℚ
  durationHours : Option ℚ
  expires : ℤ
deriving DecidableEq, Repr

/-- The `distanceCache` `Map<string, ...>`, modelled as an association list
(first binding for a key wins, as `Map.get` returns the single binding). -/
def DistCache : Type := List (String × CacheEntry)

/-- The result shape of `resolveDistanceKm`. -/
structure ResolvedDistance where
  distanceKm : ℚ
  durationHours : Option ℚ
  source : String
deriving DecidableEq, Repr

/-- The abstracted provider chain `resolveDistanceKm` (network I/O). -/
def Resolver : Type := ManualQuoteRequestDto → Option ResolvedDistance

/-- `Map.get`. -/
def cacheGet (c : DistCache) (k : String) : Option CacheEntry :=
  List.lookup k c

/-- `Map.set` (the key is bound exactly once afterwards). -/
def cacheSet (c : DistCache) (k : String) (v : CacheEntry) : DistCache :=
  (k, v) :: List.filter (fun p => p.1 ≠ k) c

/-- `Map.delete`. -/
def cacheDelete (c : DistCache) (k : String) : DistCache :=
  List.filter (fun p => p.1 ≠ k) c

/-! ### Character classes and regex-fragment matchers

The source tests strings against a fixed set of regular expressions.  We
hand-compile each one.  `\w` is `[A-Za-z0-9_]`, `\s` is whitespace, `\b` is
a word boundary (exactly one neighbouring char is a word char). -/

/-- JS `\w`. -/
def isWordChar (c : Char) : Bool := c.isAlpha || c.isDigit || c = '_'

/-- JS `\s` (ASCII part: space, tab, LF, VT, FF, CR). -/
def isWsChar (c : Char) : Bool :=
  c = ' ' || c = '\t' || c = '\n' || c = '\r' || c.toNat = 11 || c.toNat = 12

/-- Whether an optional char (none = outside the string) is a word char. -/
def optWord (c : Option Char) : Bool :=
  match c with
  | some c => isWordChar c
  | none => false

/-- JS `\b` between two (possibly absent) neighbouring characters. -/
def wordBoundary (a b : Option Char) : Bool := optWord a != optWord b

/-- `String.prototype.toLowerCase` (ASCII range; defined character-wise so
that it reduces inside the kernel, unlike core `String.toLower`). -/
def jsLower (s : String) : String := String.mk (s.data.map Char.toLower)

/-- `String.prototype.trim`: strip leading and trailing `\s`. -/
def jsTrim (s : String) : String :=
  String.mk (((s.data.dropWhile isWsChar).reverse.dropWhile isWsChar).reverse)

/-- A segment of a literal token pattern: literal text, `\s*`, or `\s+`. -/
inductive RSeg where
  | lit : List Char → RSeg
  | wsStar : RSeg
  | wsPlus : RSeg
deriving DecidableEq, Repr

/-- Strip an exact literal from the front. -/
def stripPrefixChars : List Char → List Char → Option (List Char)
  | [], s => some s
  | _ :: _, [] => none
  | c :: cs, d :: ds => if c = d then stripPrefixChars cs ds else none

/-- Match a sequence of segments at the start of `s`, returning the rest.
Whitespace gaps are consumed greedily; in every pattern used by the source a
gap is followed by a literal starting with a non-space character, so greedy
matching is equivalent to the backtracking semantics. -/
def matchSegs : List RSeg → List Char → Option (List Char)
  | [], s => some s
  | RSeg.lit w :: rest, s => (stripPrefixChars w s).bind (matchSegs rest)
  | RSeg.wsStar :: rest, s => matchSegs rest (s.dropWhile isWsChar)
  | RSeg.wsPlus :: rest, s =>
    match s with
    | c :: cs => if isWsChar c then matchSegs rest (cs.dropWhile isWsChar) else none
    | [] => none

/-- First character of a token pattern (all tokens start with a literal). -/
def patFirst (p : List RSeg) : Option Char :=
  match p with
  | RSeg.lit (c :: _) :: _ => some c
  | _ => none

/-- Last character of a token pattern (all tokens end with a literal). -/
def patLast (p : List RSeg) : Option Char :=
  match p with
  | [RSeg.lit w] => w.getLast?
  | _ :: rest => patLast rest
  | [] => none

/-- `\b<token>\b` anchored at the current position, `prev` being the char
just before it. -/
def tokenAt (p : List RSeg) (prev : Option Char) (s : List Char) : Bool :=
  match matchSegs p s with
  | some rest => wordBoundary prev (patFirst p) && wordBoundary (patLast p) rest.head?
  | none => false

/-- Search `\b<token>\b` anywhere in the string (RegExp.test). -/
def tokenSearchAux (p : List RSeg) : Option Char → List Char → Bool
  | prev, [] => tokenAt p prev []
  | prev, c :: cs => tokenAt p prev (c :: cs) || tokenSearchAux p (some c) cs

/-- `RegExp.test` for a single word-bounded token. -/
def tokenSearch (p : List RSeg) (s : List Char) : Bool := tokenSearchAux p none s

/-- `RegExp.test` for `\b(t1|t2|...)\b` (union of word-bounded tokens). -/
def anyToken (ps : List (List RSeg)) (s : List Char) : Bool :=
  ps.any (fun p => tokenSearch p s)

/-- A one-word token. -/
def wordTok (s : String) : List RSeg := [RSeg.lit s.toList]

/-- A multi-part token whose parts are separated by `\s*` in the regex. -/
def gapTok : List String → List RSeg
  | [] => []
  | [p] => [RSeg.lit p.toList]
  | p :: rest => RSeg.lit p.toList :: RSeg.wsStar :: gapTok rest

/-- Is `needle` a prefix of the string. -/
def isPrefixChars : List Char → List Char → Bool
  | [], _ => true
  | _ :: _, [] => false
  | c :: cs, d :: ds => c = d && isPrefixChars cs ds

/-- `String.prototype.includes`. -/
def containsSub (needle : List Char) : List Char → Bool
  | [] => needle.isEmpty
  | c :: cs => isPrefixChars needle (c :: cs) || containsSub needle cs

/-! ### Region / lane classifiers (pure string-to-category functions) -/

/-- Tokens of the `isNigeria` regex alternation. -/
def nigeriaTokens : List (List RSeg) :=
  [wordTok "lagos", wordTok "abuja", wordTok "kano", wordTok "ogun",
   wordTok "abeokuta", gapTok ["port", "harcourt"], wordTok "portharcourt",
   wordTok "ph", wordTok "apapa", gapTok ["tin", "can"], wordTok "ibadan",
   gapTok ["benin", "city"], wordTok "warri", wordTok "enugu",
   wordTok "owerri", wordTok "calabar", wordTok "kaduna", wordTok "jos",
   wordTok "maiduguri", wordTok "sokoto", wordTok "zaria", wordTok "ilorin",
   gapTok ["ado", "ekiti"], wordTok "akure"]

/-- `isNigeria(value?)`: contains `'nigeria'` or any recognised city token. -/
def isNigeria (value : Option String) : Bool :=
  let v := jsLower (value.getD "")
  if v = "" then false
  else containsSub "nigeria".toList v.toList || anyToken nigeriaTokens v.toList

/-- Tokens of the Africa branch of `detectRegion`. -/
def africaTokens : List (List RSeg) :=
  [wordTok "africa", wordTok "ghana", wordTok "kenya", wordTok "ethiopia",
   wordTok "south africa", wordTok "johannesburg", wordTok "cairo",
   wordTok "egypt", wordTok "morocco", wordTok "tanzania", wordTok "uganda",
   wordTok "senegal", wordTok "ivory coast", wordTok "cameroon",
   wordTok "accra", wordTok "nairobi", wordTok "addis ababa",
   wordTok "dakar", wordTok "abidjan", wordTok "douala"]

/-- Tokens of the Asia branch of `detectRegion`. -/
def asiaTokens : List (List RSeg) :=
  [wordTok "china", wordTok "shanghai", wordTok "shenzhen",
   wordTok "guangzhou", wordTok "hong kong", wordTok "singapore",
   wordTok "vietnam", wordTok "asia", wordTok "japan", wordTok "tokyo",
   wordTok "osaka", wordTok "seoul", wordTok "korea", wordTok "taiwan",
   wordTok "taipei", wordTok "bangkok", wordTok "thailand",
   wordTok "malaysia", wordTok "kuala lumpur", wordTok "indonesia",
   wordTok "jakarta", wordTok "philippines", wordTok "manila",
   wordTok "india", wordTok "mumbai", wordTok "delhi", wordTok "chennai"]

/-- Tokens of the Middle East branch of `detectRegion`. -/
def middleeastTokens : List (List RSeg) :=
  [wordTok "middle east", wordTok "uae", wordTok "dubai",
   wordTok "abu dhabi", wordTok "saudi", wordTok "riyadh", wordTok "jeddah",
   wordTok "kuwait", wordTok "qatar", wordTok "doha", wordTok "bahrain",
   wordTok "oman", wordTok "muscat", wordTok "jordan", wordTok "amman",
   wordTok "beirut", wordTok "lebanon", wordTok "israel", wordTok "tel aviv"]

/-- Tokens of the Europe branch of `detectRegion`. -/
def europeTokens : List (List RSeg) :=
  [wordTok "europe", wordTok "uk", wordTok "united kingdom",
   wordTok "london", wordTok "germany", wordTok "berlin", wordTok "france",
   wordTok "paris", wordTok "netherlands", wordTok "amsterdam",
   wordTok "belgium", wordTok "brussels", wordTok "spain", wordTok "madrid",
   wordTok "italy", wordTok "rome", wordTok "poland", wordTok "warsaw",
   wordTok "sweden", wordTok "stockholm", wordTok "norway", wordTok "oslo",
   wordTok "denmark", wordTok "copenhagen", wordTok "switzerland",
   wordTok "zurich", wordTok "austria", wordTok "vienna",
   wordTok "portugal", wordTok "lisbon", wordTok "ireland", wordTok "dublin"]

/-- Tokens of the USA/Americas branch of `detectRegion` (`u\.s\.` keeps its
literal dots, so its trailing `\b` requires a following word char). -/
def usaTokens : List (List RSeg) :=
  [wordTok "usa", wordTok "u.s.", wordTok "united states", wordTok "america",
   wordTok "new york", wordTok "los angeles", wordTok "lax", wordTok "jfk",
   wordTok "chicago", wordTok "houston", wordTok "dallas", wordTok "miami",
   wordTok "atlanta", wordTok "seattle", wordTok "san francisco",
   wordTok "boston", wordTok "canada", wordTok "toronto",
   wordTok "vancouver", wordTok "montreal", wordTok "mexico",
   wordTok "mexico city"]

/-- `detectRegion(value?)`: ordered keyword pattern matching, defaulting to
the `unknown` bucket. -/
def detectRegion (value : Option String) : Region :=
  let v := jsLower (value.getD "")
  if v = "" then Region.unknown
  else if isNigeria (some v) then Region.nigeria
  else if anyToken africaTokens v.toList then Region.africa
  else if anyToken asiaTokens v.toList then Region.asia
  else if anyToken middleeastTokens v.toList then Region.middleeast
  else if anyToken europeTokens v.toList then Region.europe
  else if anyToken usaTokens v.toList then Region.usa
  else Region.unknown

/-- `resolveNigeriaCity(raw)`: canonical lane-table key, `''` if unmatched. -/
def resolveNigeriaCity (raw : String) : String :=
  let v := (jsTrim (jsLower raw)).toList
  if tokenSearch (wordTok "lagos") v then "lagos"
  else if tokenSearch (wordTok "abuja") v then "abuja"
  else if tokenSearch (wordTok "kano") v then "kano"
  else if anyToken [gapTok ["port", "harcourt"], wordTok "portharcourt", wordTok "ph"] v then "ph"
  else if anyToken [wordTok "abeokuta", wordTok "ogun"] v then "abeokuta"
  else if tokenSearch (wordTok "ibadan") v then "ibadan"
  else if anyToken [gapTok ["benin", "city"], wordTok "benin"] v then "benin"
  else if tokenSearch (wordTok "warri") v then "warri"
  else if tokenSearch (wordTok "enugu") v then "enugu"
  else if tokenSearch (wordTok "owerri") v then "owerri"
  else if tokenSearch (wordTok "calabar") v then "calabar"
  else if tokenSearch (wordTok "kaduna") v then "kaduna"
  else if tokenSearch (wordTok "jos") v then "jos"
  else if tokenSearch (wordTok "maiduguri") v then "maiduguri"
  else if tokenSearch (wordTok "sokoto") v then "sokoto"
  else ""

/-- `detectMode(text)`: keyword sets tried in a fixed order. -/
def detectMode (text : String) : Option ManualMode :=
  let t := (jsLower text).toList
  if anyToken [wordTok "dhl", wordTok "fedex", wordTok "ups",
      wordTok "parcel", wordTok "small package", wordTok "express"] t then
    some ManualMode.parcel
  else if anyToken [wordTok "air", wordTok "iata", wordTok "airport",
      wordTok "air freight", wordTok "air cargo"] t then
    some ManualMode.air
  else if anyToken [wordTok "ocean", wordTok "sea", wordTok "container",
      wordTok "fcl", wordTok "lcl", wordTok "ship", wordTok "vessel",
      wordTok "port"] t then
    some ManualMode.ocean
  else if anyToken [wordTok "truck", wordTok "trucking", wordTok "ground",
      wordTok "ltl", wordTok "road", wordTok "interstate",
      wordTok "intrastate"] t then
    some ManualMode.ground
  else none

/-! ### Numeric captures (`\d+(?:\.\d+)?` with units) -/

/-- Split off the leading run of digits. -/
def takeDigits (s : List Char) : List Char × List Char :=
  (s.takeWhile Char.isDigit, s.dropWhile Char.isDigit)

/-- Digits to a natural number. -/
def digitsToNat (ds : List Char) : ℕ :=
  ds.foldl (fun n c => 10 * n + (c.toNat - 48)) 0

/-- `Number('<int>.<frac>')`. -/
def decimalValue (intPart fracPart : List Char) : ℚ :=
  (digitsToNat intPart : ℚ) + (digitsToNat fracPart : ℚ) / (10 ^ fracPart.length)

/-- Candidate matches of `\d+(?:\.\d+)?` anchored here, in JS backtracking
order (the optional fraction is tried first, then dropped).  Each candidate
is the captured value and the rest of the input. -/
def numberCandidates (s : List Char) : List (ℚ × List Char) :=
  let p := takeDigits s
  if p.1.isEmpty then []
  else
    match p.2 with
    | '.' :: r2 =>
      let q := takeDigits r2
      if q.1.isEmpty then [((digitsToNat p.1 : ℚ), p.2)]
      else [(decimalValue p.1 q.1, q.2), ((digitsToNat p.1 : ℚ), p.2)]
    | _ => [((digitsToNat p.1 : ℚ), p.2)]

/-- `\b(\d+(?:\.\d+)?)\s*<unit>\b` anchored at the current position. -/
def unitMatchAt (unit : List Char) (prev : Option Char) (s : List Char) : Option ℚ :=
  if optWord prev then none
  else
    (numberCandidates s).findSome? fun p =>
      match stripPrefixChars unit (p.2.dropWhile isWsChar) with
      | some r3 => if optWord r3.head? then none else some p.1
      | none => none

/-- Leftmost match of `\b(\d+(?:\.\d+)?)\s*<unit>\b` (first occurrence). -/
def unitSearchAux (unit : List Char) : Option Char → List Char → Option ℚ
  | _, [] => none
  | prev, c :: cs =>
    match unitMatchAt unit prev (c :: cs) with
    | some v => some v
    | none => unitSearchAux unit (some c) cs

/-- The weight/distance extraction regexes (`kg` / `km` units). -/
def unitNumberSearch (unit : List Char) (t : List Char) : Option ℚ :=
  unitSearchAux unit none t

/-- `\b(\d+(?:\.\d+)?)\s*[x×]\s*...\s*cm\b` anchored here. -/
def dimMatchAt (prev : Option Char) (s : List Char) : Option DimensionsCm :=
  if optWord prev then none
  else
    (numberCandidates s).findSome? fun pl =>
      match pl.2.dropWhile isWsChar with
      | c :: r3 =>
        if c = 'x' ∨ c = '×' then
          (numberCandidates (r3.dropWhile isWsChar)).findSome? fun pw =>
            match pw.2.dropWhile isWsChar with
            | c2 :: r6 =>
              if c2 = 'x' ∨ c2 = '×' then
                (numberCandidates (r6.dropWhile isWsChar)).findSome? fun ph =>
                  match stripPrefixChars ['c', 'm'] (ph.2.dropWhile isWsChar) with
                  | some r9 =>
                    if optWord r9.head? then none
                    else some { length := pl.1, width := pw.1, height := ph.1 }
                  | none => none
              else none
            | [] => none
        else none
      | [] => none

/-- Leftmost match of the dimensions regex. -/
def dimSearchAux : Option Char → List Char → Option DimensionsCm
  | _, [] => none
  | prev, c :: cs =>
    match dimMatchAt prev (c :: cs) with
    | some d => some d
    | none => dimSearchAux (some c) cs

/-! ### The `from <A> to <B>` extraction regex

`/\bfrom\b\s+([^\n]+?)\s+\bto\b\s+([^\n,.]+?)(?:(?:\s+\d+(?:\.\d+)?\s*(?:kg|km)\b)|\bby\b|\bvia\b|\.|,|$)/i`

Lazy captures are enumerated shortest-first; `\s+` gaps greedily longest
first; the terminator alternatives are tried in source order.  The engine
advances the overall start position one character at a time on failure. -/

/-- Rests after consuming `j` whitespace characters for `j = max run, ...,
1` — the greedy backtracking order of `\s+`. -/
def wsPlusRests (s : List Char) : List (List Char) :=
  let n := (s.takeWhile isWsChar).length
  (List.range n).map (fun i => s.drop (n - i))

/-- `(capture, rest)` pairs of a lazy `+?` capture over `allowed`
characters, shortest capture first. -/
def lazySplits (allowed : Char → Bool) (s : List Char) : List (List Char × List Char) :=
  let n := (s.takeWhile allowed).length
  (List.range n).map (fun i => (s.take (i + 1), s.drop (i + 1)))

/-- A word-bounded literal anchored at the current position. -/
def litWordAt (tok : List Char) (prev : Option Char) (s : List Char) : Bool :=
  match stripPrefixChars tok s with
  | some r => wordBoundary prev tok.head? && wordBoundary tok.getLast? r.head?
  | none => false

/-- The terminator group of the from/to regex, tried at the position right
after the destination capture; `prev` is the capture's last character. -/
def fromToTerminator (prev : Option Char) (s : List Char) : Bool :=
  -- `\s+\d+(?:\.\d+)?\s*(?:kg|km)\b` (a trailing quantity token)
  (match s with
   | c :: cs =>
     isWsChar c &&
       (numberCandidates (cs.dropWhile isWsChar)).any (fun p =>
         let r2 := p.2.dropWhile isWsChar
         (match stripPrefixChars ['k', 'g'] r2 with
          | some r3 => !(optWord r3.head?)
          | none => false) ||
         (match stripPrefixChars ['k', 'm'] r2 with
          | some r3 => !(optWord r3.head?)
          | none => false))
   | [] => false) ||
  -- `\bby\b`
  litWordAt ['b', 'y'] prev s ||
  -- `\bvia\b`
  litWordAt ['v', 'i', 'a'] prev s ||
  -- `\.` | `,` | `$`
  s.head? = some '.' || s.head? = some ',' || s.isEmpty

/-- Everything after the leading `\bfrom\b` of the from/to regex: both
captures, or `none` when no continuation matches here. -/
def fromToAfterFrom (s1 : List Char) : Option (List Char × List Char) :=
  (wsPlusRests s1).findSome? fun r1 =>
    (lazySplits (fun c => c ≠ '\n') r1).findSome? fun c1 =>
      (wsPlusRests c1.2).findSome? fun r3 =>
        match stripPrefixChars ['t', 'o'] r3 with
        | none => none
        | some r4 =>
          if optWord r4.head? then none
          else
            (wsPlusRests r4).findSome? fun r5 =>
              (lazySplits (fun c => c ≠ '\n' ∧ c ≠ ',' ∧ c ≠ '.') r5).findSome? fun c2 =>
                if fromToTerminator c2.1.getLast? c2.2 then some (c1.1, c2.1)
                else none

/-- Leftmost match of the whole from/to regex. -/
def fromToSearch : Option Char → List Char → Option (List Char × List Char)
  | _, [] => none
  | prev, c :: cs =>
    (if optWord prev then none
     else
       match stripPrefixChars ['f', 'r', 'o', 'm'] (c :: cs) with
       | some r =>
         if optWord r.head? then none else fromToAfterFrom r
       | none => none).orElse
      (fun _ => fromToSearch (some c) cs)

/-! ### `cleanPlace` tail-stripping replacements -/

/-- `/\s+\d+(?:\.\d+)?\s*(kg|km)\b.*$/` anchored at the current position
(`.*$` forbids a later line break, as `.` does not match `\n`). -/
def cpQuantityTail (s : List Char) : Bool :=
  match s with
  | c :: cs =>
    isWsChar c &&
      (numberCandidates (cs.dropWhile isWsChar)).any (fun p =>
        let r2 := p.2.dropWhile isWsChar
        (match stripPrefixChars ['k', 'g'] r2 with
         | some r3 => !(optWord r3.head?) && !(r3.contains '\n')
         | none => false) ||
        (match stripPrefixChars ['k', 'm'] r2 with
         | some r3 => !(optWord r3.head?) && !(r3.contains '\n')
         | none => false))
  | [] => false

/-- `/\s+<word>\s+.*$/` anchored at the current position (used with `by`
and `via`; `\s` may absorb line breaks but `.*` may not). -/
def cpWordTail (wrd : List Char) (s : List Char) : Bool :=
  match s with
  | c :: cs =>
    isWsChar c &&
      (match stripPrefixChars wrd (cs.dropWhile isWsChar) with
       | some (d :: ds) =>
         isWsChar d && !((ds.dropWhile isWsChar).contains '\n')
       | some [] => false
       | none => false)
  | [] => false

/-- `String.prototype.replace` with `''` for a tail-anchored pattern:
truncate at the leftmost position where the pattern matches. -/
def stripFirstMatch (p : List Char → Bool) : List Char → List Char
  | [] => []
  | c :: cs => if p (c :: cs) then [] else c :: stripFirstMatch p cs

/-- `cleanPlace(value?)` of the source. -/
def cleanPlace (value : Option String) : String :=
  let raw := jsTrim (value.getD "")
  if raw = "" then ""
  else
    jsTrim (String.mk
      (stripFirstMatch (cpWordTail ['v', 'i', 'a'])
        (stripFirstMatch (cpWordTail ['b', 'y'])
          (stripFirstMatch cpQuantityTail raw.toList))))

/-! ### Demurrage-days extraction -/

/-- `(day|days)\b` anchored here (no boundary before — the preceding regex
fragment is `\s*`); JS tries `day` first and backtracks into `days`. -/
def dayTokenAt (s : List Char) : Option (List Char) :=
  match stripPrefixChars ['d', 'a', 'y'] s with
  | none => none
  | some r =>
    if !(optWord r.head?) then some r
    else
      match r with
      | 's' :: r2 => if !(optWord r2.head?) then some r2 else none
      | _ => none

/-- Search `\b(demurrage|detention)\b` on the same line (the `.*` that
precedes it cannot cross `\n`). -/
def lineTokenSearchAux (ps : List (List RSeg)) : Option Char → List Char → Bool
  | _, [] => false
  | prev, c :: cs =>
    if c = '\n' then false
    else ps.any (fun p => tokenAt p prev (c :: cs)) || lineTokenSearchAux ps (some c) cs

/-- `\b(\d+)\s*(day|days)\b.*\b(demurrage|detention)\b` anchored here. -/
def demurrageMatchAt (prev : Option Char) (s : List Char) : Option ℚ :=
  if optWord prev then none
  else
    let p := takeDigits s
    if p.1.isEmpty then none
    else
      match dayTokenAt (p.2.dropWhile isWsChar) with
      | none => none
      | some r3 =>
        -- the char preceding `r3` is the `y`/`s` of the day token — a word
        -- char either way, so `some 'y'` is a faithful stand-in
        if lineTokenSearchAux [wordTok "demurrage", wordTok "detention"] (some 'y') r3 then
          some (digitsToNat p.1 : ℚ)
        else none

/-- Leftmost match of the demurrage regex. -/
def demurrageSearchAux : Option Char → List Char → Option ℚ
  | _, [] => none
  | prev, c :: cs =>
    match demurrageMatchAt prev (c :: cs) with
    | some v => some v
    | none => demurrageSearchAux (some c) cs

/-! ### Free-text extractor -/

/-- The container-type branch of `extractFromText`: `20ft` sets, then
`40hc` overrides, `else` `40ft` overrides. -/
def containerTypeOf (t : List Char) : Option ManualContainerType :=
  let c20 : Option ManualContainerType :=
    if anyToken [gapTok ["20", "ft"], gapTok ["20", "feet"], wordTok "20ft"] t then
      some ManualContainerType.c20ft
    else none
  if anyToken [gapTok ["40", "hc"], wordTok "40hc", gapTok ["40", "high", "cube"]] t then
    some ManualContainerType.c40hc
  else if anyToken [gapTok ["40", "ft"], gapTok ["40", "feet"], wordTok "40ft"] t then
    some ManualContainerType.c40ft
  else c20

/-- The express-flag regex of `extractFromText`. -/
def expressTokens : List (List RSeg) :=
  [wordTok "express", wordTok "dhl", wordTok "fedex", wordTok "ups"]

/-- `extractFromText(freeText)`: parse an unstructured sentence into a
partial request.  Absence of a pattern match leaves the field unset. -/
def extractFromText (freeText : String) : ManualQuoteRequestDto :=
  let lowered := jsLower freeText
  let t := lowered.toList
  let ft := fromToSearch none t
  { freeText := some freeText
    mode := detectMode lowered
    origin := ft.map (fun p => cleanPlace (some (String.mk p.1)))
    destination := ft.map (fun p => cleanPlace (some (String.mk p.2)))
    weightKg := unitNumberSearch ['k', 'g'] t
    dimensionsCm := dimSearchAux none t
    distanceKm := unitNumberSearch ['k', 'm'] t
    containerType := containerTypeOf t
    isExpress := if anyToken expressTokens t then some true else none
    detentionDemurrageDays := demurrageSearchAux none t }

/-! ### Merging (`estimate` preamble) -/

/-- `(X ?? '').toString().trim() || undefined` for the origin/destination
and freeText normalisation. -/
def normStrField (o : Option String) : Option String :=
  let s := jsTrim (o.getD "")
  if s = "" then none else some s

/-- The merged request `req` built at the top of `estimate`:
`{...fromFreeText, ...dto}` with explicit overrides for `dimensionsCm`,
`origin`, `destination` and `freeText`. -/
def mergeDto (dto : ManualQuoteRequestDto) : ManualQuoteRequestDto :=
  let f :=
    match dto.freeText with
    | some t => if t ≠ "" then extractFromText t else {}
    | none => {}
  { freeText := normStrField dto.freeText
    mode := dto.mode.orElse (fun _ => f.mode)
    origin := normStrField (dto.origin.orElse (fun _ => f.origin))
    destination := normStrField (dto.destination.orElse (fun _ => f.destination))
    weightKg := dto.weightKg.orElse (fun _ => f.weightKg)
    dimensionsCm := dto.dimensionsCm.orElse (fun _ => f.dimensionsCm)
    volumeCbm := dto.volumeCbm.orElse (fun _ => f.volumeCbm)
    containerType := dto.containerType.orElse (fun _ => f.containerType)
    distanceKm := dto.distanceKm.orElse (fun _ => f.distanceKm)
    start := dto.start.orElse (fun _ => f.start)
    endPt := dto.endPt.orElse (fun _ => f.endPt)
    isExpress := dto.isExpress.orElse (fun _ => f.isExpress)
    detentionDemurrageDays :=
      dto.detentionDemurrageDays.orElse (fun _ => f.detentionDemurrageDays) }

/-- The merged request with the resolved mode written back
(`const mode = req.mode ?? this.detectMode(req.freeText ?? ''); req.mode = mode`). -/
def estimateReq (dto : ManualQuoteRequestDto) : ManualQuoteRequestDto :=
  let req := mergeDto dto
  { req with mode := req.mode.orElse (fun _ => detectMode (req.freeText.getD "")) }

/-- The early same-location rejection condition
(`req.origin && req.destination && lower/trim equality`). -/
def sameLocation (o d : Option String) : Bool :=
  match o, d with
  | some a, some b => a ≠ "" && b ≠ "" && jsTrim (jsLower a) = jsTrim (jsLower b)
  | _, _ => false

/-! ### Rate tables and configuration -/

/-- `NIGERIA_PARCEL_LANES`: city-pair → base NGN for parcels (keys
alphabetically sorted `cityA::cityB`). -/
def NIGERIA_PARCEL_LANES : List (String × ℚ) :=
  [("abuja::abuja", 2500), ("kano::kano", 2500), ("lagos::lagos", 3500),
   ("ph::ph", 2800), ("portharcourt::portharcourt", 2800),
   ("abuja::lagos", 5750), ("lagos::ogun", 3800), ("abeokuta::lagos", 3800),
   ("ibadan::lagos", 4000), ("lagos::ph", 9500),
   ("lagos::portharcourt", 9500), ("lagos::kano", 12000),
   ("benin::lagos", 7500), ("lagos::warri", 9000), ("enugu::lagos", 11000),
   ("lagos::owerri", 10500), ("lagos::calabar", 13000),
   ("abuja::kano", 6500), ("abuja::ph", 10500),
   ("abuja::portharcourt", 10500), ("abuja::enugu", 8500),
   ("abuja::kaduna", 5500), ("abuja::jos", 6000), ("abuja::owerri", 9500),
   ("benin::ph", 7000), ("benin::portharcourt", 7000), ("enugu::ph", 7500),
   ("enugu::portharcourt", 7500), ("ph::warri", 6500),
   ("portharcourt::warri", 6500), ("calabar::ph", 8000),
   ("calabar::portharcourt", 8000),
   ("kaduna::kano", 4000), ("jos::kano", 5500), ("kano::maiduguri", 9000),
   ("kano::sokoto", 7500)]

/-- `nigeriaLaneBaseNgn`: bilateral lane rate, order-insensitive. -/
def nigeriaLaneBaseNgn (originCity destCity : String) : Option ℚ :=
  match NIGERIA_PARCEL_LANES.lookup (originCity ++ "::" ++ destCity) with
  | some r => some r
  | none => NIGERIA_PARCEL_LANES.lookup (destCity ++ "::" ++ originCity)

/-- `OCEAN_BASE_USD`: region × container size (total over `Region`, so the
`?? OCEAN_BASE_USD['unknown']` fallback of the source is dead code). -/
def OCEAN_BASE_USD (r : Region) (c : ManualContainerType) : ℚ :=
  match r, c with
  | Region.europe, ManualContainerType.c20ft => 1500
  | Region.europe, ManualContainerType.c40ft => 2300
  | Region.europe, ManualContainerType.c40hc => 2500
  | Region.usa, ManualContainerType.c20ft => 2500
  | Region.usa, ManualContainerType.c40ft => 4000
  | Region.usa, ManualContainerType.c40hc => 4300
  | Region.asia, ManualContainerType.c20ft => 2000
  | Region.asia, ManualContainerType.c40ft => 3200
  | Region.asia, ManualContainerType.c40hc => 3500
  | Region.middleeast, ManualContainerType.c20ft => 1800
  | Region.middleeast, ManualContainerType.c40ft => 2900
  | Region.middleeast, ManualContainerType.c40hc => 3100
  | Region.africa, ManualContainerType.c20ft => 1200
  | Region.africa, ManualContainerType.c40ft => 1900
  | Region.africa, ManualContainerType.c40hc => 2100
  | Region.nigeria, ManualContainerType.c20ft => 900
  | Region.nigeria, ManualContainerType.c40ft => 1400
  | Region.nigeria, ManualContainerType.c40hc => 1550
  | Region.unknown, ManualContainerType.c20ft => 2150
  | Region.unknown, ManualContainerType.c40ft => 3300
  | Region.unknown, ManualContainerType.c40hc => 3600

/-- `AIR_RATE_USD_PER_KG`: region × (standard | express) USD per kg. -/
def AIR_RATE_USD_PER_KG (r : Region) (express : Bool) : ℚ :=
  match r, express with
  | Region.europe, false => 4.75
  | Region.europe, true => 8.5
  | Region.usa, false => 6.5
  | Region.usa, true => 11.5
  | Region.asia, false => 5.25
  | Region.asia, true => 9.5
  | Region.middleeast, false => 4.5
  | Region.middleeast, true => 8
  | Region.africa, false => 3.75
  | Region.africa, true => 7
  | Region.nigeria, false => 3.5
  | Region.nigeria, true => 6.5
  | Region.unknown, false => 5.75
  | Region.unknown, true => 10

/-- The `envNumber` configuration reads, one field per environment key,
with the source's hardcoded fallbacks as defaults. -/
structure Config where
  usdToNgn : ℚ := 1550                     -- MANUAL_USD_TO_NGN
  inflation2026 : ℚ := 1.03                -- MANUAL_QUOTES_INFLATION_2026
  marketMultParcel : ℚ := 1.06             -- MANUAL_QUOTES_MARKET_MULT_PARCEL
  marketMultOcean : ℚ := 0.88              -- MANUAL_QUOTES_MARKET_MULT_OCEAN
  marketMultAir : ℚ := 1.03                -- MANUAL_QUOTES_MARKET_MULT_AIR
  marketMultGround : ℚ := 1.02             -- MANUAL_QUOTES_MARKET_MULT_GROUND
  marginParcel : ℚ := 0.275                -- MANUAL_QUOTES_MARGIN_PARCEL
  marginOcean : ℚ := 0.2                   -- MANUAL_QUOTES_MARGIN_OCEAN
  marginAir : ℚ := 0.25                    -- MANUAL_QUOTES_MARGIN_AIR
  marginGround : ℚ := 0.4                  -- MANUAL_QUOTES_MARGIN_GROUND
  parcelDomesticSurchargePct : ℚ := 0.15   -- MANUAL_PARCEL_DOMESTIC_SURCHARGE_PCT
  parcelSurchargePct : ℚ := 0.25           -- MANUAL_PARCEL_SURCHARGE_PCT
  oceanPortCongestionUsd : ℚ := 400        -- MANUAL_OCEAN_PORT_CONGESTION_USD
  oceanDocumentationUsd : ℚ := 100         -- MANUAL_OCEAN_DOCUMENTATION_USD
  oceanBafCafPct : ℚ := 0.075              -- MANUAL_OCEAN_BAF_CAF_PCT
  oceanDemurrageUsdPerDay : ℚ := 200       -- MANUAL_OCEAN_DEMURRAGE_USD_PER_DAY
  airSurchargePct : ℚ := 0.15              -- MANUAL_AIR_SURCHARGE_PCT
  airMinChargeableKg : ℚ := 45             -- MANUAL_AIR_MIN_CHARGEABLE_KG
  groundNgnPerKm : ℚ := 250                -- MANUAL_GROUND_NGN_PER_KM
  groundSurchargePct : ℚ := 0.1            -- MANUAL_GROUND_SURCHARGE_PCT
deriving DecidableEq

/-- The engine with no environment overrides. -/
def defaultConfig : Config := {}

/-- `marketMultiplierByMode`. -/
def marketMult (cfg : Config) : ManualMode → ℚ
  | ManualMode.parcel => cfg.marketMultParcel
  | ManualMode.ocean => cfg.marketMultOcean
  | ManualMode.air => cfg.marketMultAir
  | ManualMode.ground => cfg.marketMultGround

/-- `marginPctByMode` of `finalizeBreakdown`. -/
def marginPct (cfg : Config) : ManualMode → ℚ
  | ManualMode.parcel => cfg.marginParcel
  | ManualMode.ocean => cfg.marginOcean
  | ManualMode.air => cfg.marginAir
  | ManualMode.ground => cfg.marginGround

/-- The class constants `volumeDivisorParcel` / `volumeDivisorAir`. -/
def volumeDivisorParcel : ℚ := 5000

/-- Volumetric divisor of the air branch. -/
def volumeDivisorAir : ℚ := 6000

/-- Region as displayed in assumption strings. -/
def regionStr : Region → String
  | Region.nigeria => "nigeria"
  | Region.africa => "africa"
  | Region.asia => "asia"
  | Region.middleeast => "middleeast"
  | Region.europe => "europe"
  | Region.usa => "usa"
  | Region.unknown => "unknown"

/-- Container type as displayed in assumption strings and lane keys. -/
def containerStr : ManualContainerType → String
  | ManualContainerType.c20ft => "20ft"
  | ManualContainerType.c40ft => "40ft"
  | ManualContainerType.c40hc => "40hc"

/-! ### Chargeable-weight helpers -/

/-- The dimensions path of `calculateVolumetricKg` (NaN, modelled `none`,
when dimensions are absent or any of L/W/H is not a positive number). -/
def volumetricFromDims (req : ManualQuoteRequestDto) (divisor : ℚ) : Option ℚ :=
  match req.dimensionsCm with
  | none => none
  | some d =>
    if 0 < d.length ∧ 0 < d.width ∧ 0 < d.height then
      some (d.length * d.width * d.height / divisor)
    else none

/-- `calculateVolumetricKg(req, divisor)`: a truthy `volumeCbm` wins, else
dimensions, else NaN. -/
def calculateVolumetricKg (req : ManualQuoteRequestDto) (divisor : ℚ) : Option ℚ :=
  match req.volumeCbm with
  | some v =>
    if v ≠ 0 then some (v * 1000000 / divisor) else volumetricFromDims req divisor
  | none => volumetricFromDims req divisor

/-- Weight tiers of the domestic parcel branch. -/
def parcelWeightFactor (chargeableKg : ℚ) : ℚ :=
  if 30 < chargeableKg then 3.5
  else if 20 < chargeableKg then 2.8
  else if 10 < chargeableKg then 2
  else if 5 < chargeableKg then 1.5
  else if 1 < chargeableKg then 1.2
  else 1

/-- USD base by weight bracket of the international parcel branch. -/
def intlParcelBaseUsd (kg : ℚ) : ℚ :=
  if kg ≤ 0.5 then 35
  else if kg ≤ 1 then 50
  else if kg ≤ 5 then 65
  else if kg ≤ 10 then 115
  else if kg ≤ 30 then 215
  else 350

/-- `regionalAdj` of the international parcel branch (`?? 1.0` for the
`unknown` bucket). -/
def regionalAdj : Region → ℚ
  | Region.usa => 1.3
  | Region.europe => 1
  | Region.asia => 1.1
  | Region.middleeast => 1.05
  | Region.africa => 0.9
  | Region.nigeria => 0.8
  | Region.unknown => 1

/-- The air branch's chargeable weight: `max(actual, volumetric)` floored
at the configured minimum. -/
def airChargeable (cfg : Config) (req : ManualQuoteRequestDto) : ℚ :=
  let weightKg := req.weightKg.getD 0
  let volumetricKg := calculateVolumetricKg req volumeDivisorAir
  let chargeable := max weightKg (volumetricKg.getD 0)
  if chargeable < cfg.airMinChargeableKg then cfg.airMinChargeableKg else chargeable

/-- Intra-city flat per-km table of the ground branch, with the
`MANUAL_GROUND_NGN_PER_KM` fallback for untabulated cities. -/
def intraCityRateNgn (cfg : Config) (city : String) : ℚ :=
  if city = "lagos" then 350
  else if city = "abuja" then 300
  else if city = "kano" then 280
  else if city = "ph" then 300
  else cfg.groundNgnPerKm

/-- Distance-tiered inter-city per-km rate of the ground branch. -/
def interCityPerKm (km : ℚ) : ℚ :=
  if km ≤ 100 then 350
  else if km ≤ 300 then 300
  else if km ≤ 600 then 260
  else 230

/-- The per-km rate selection of the ground branch: intra-city flat rate
when both endpoints resolve to the same recognised city, else the tier. -/
def groundPerKm (cfg : Config) (origin destination : Option String) (km : ℚ) : ℚ :=
  let oCity := resolveNigeriaCity (origin.getD "")
  let dCity := resolveNigeriaCity (destination.getD "")
  if oCity ≠ "" ∧ oCity = dCity then intraCityRateNgn cfg oCity
  else interCityPerKm km

/-! ### Per-mode base/surcharge computation (the branches of `calculate`).
Each returns `(base, surcharges, branch assumption lines)`; base and
surcharges are already multiplied by the shared inflation×market
multiplier, exactly as in the source. -/

/-- The PARCEL branch of `calculate`. -/
def parcelCompute (cfg : Config) (req : ManualQuoteRequestDto) (multiplier : ℚ) :
    ℚ × ℚ × List String :=
  let oNig := isNigeria req.origin
  let dNig := isNigeria req.destination
  let weightKg := req.weightKg.getD 0
  if oNig && dNig then
    -- domestic Nigeria parcel
    let oCity := resolveNigeriaCity (req.origin.getD "")
    let dCity := resolveNigeriaCity (req.destination.getD "")
    let laneRate := nigeriaLaneBaseNgn oCity dCity
    let baseNgn0 := laneRate.getD 15000
    let laneAsm :=
      match laneRate with
      | some r =>
        "Lane: " ++ (if oCity ≠ "" then oCity else req.origin.getD "") ++
          " - " ++ (if dCity ≠ "" then dCity else req.destination.getD "") ++
          " (NGN " ++ toString r ++ " base)"
      | none => "Lane: unmapped Nigeria route - long-distance fallback used"
    let volKgParcel := calculateVolumetricKg req volumeDivisorParcel
    let chargeableKg := max weightKg (volKgParcel.getD 0)
    let volAsm : List String :=
      match volKgParcel with
      | some v =>
        if weightKg < v then
          ["Volumetric weight used: " ++ toString (round2 v) ++ " kg (actual " ++
            toString weightKg ++ " kg, divisor " ++ toString volumeDivisorParcel ++ ")"]
        else []
      | none => []
    let wtFactor := parcelWeightFactor chargeableKg
    let baseNgn := baseNgn0 * wtFactor
    let surchargeNgn := baseNgn * cfg.parcelDomesticSurchargePct
    (baseNgn * multiplier, surchargeNgn * multiplier,
      ["Domestic Nigeria parcel averages (2026)", laneAsm] ++ volAsm ++
        ["Weight factor applied: x" ++ toString wtFactor ++ " for " ++
          toString (round2 chargeableKg) ++ " kg (chargeable)"])
  else
    -- international parcel
    let originRegion := detectRegion req.origin
    let destRegion := detectRegion req.destination
    let volKgIntl := calculateVolumetricKg req volumeDivisorParcel
    let chargeableKgIntl := max weightKg (volKgIntl.getD 0)
    let volAsm : List String :=
      match volKgIntl with
      | some v =>
        if weightKg < v then
          ["Volumetric weight used: " ++ toString (round2 v) ++ " kg (actual " ++
            toString weightKg ++ " kg, divisor " ++ toString volumeDivisorParcel ++ ")"]
        else []
      | none => []
    let baseUsd0 := intlParcelBaseUsd chargeableKgIntl
    let adjFactor := regionalAdj originRegion
    let baseUsd := round2 (baseUsd0 * adjFactor)
    let surchargeUsd := baseUsd * cfg.parcelSurchargePct
    (baseUsd * cfg.usdToNgn * multiplier, surchargeUsd * cfg.usdToNgn * multiplier,
      ["International express parcel averages (2026)",
       "Origin region: " ++ regionStr originRegion ++ " | Destination region: " ++
         regionStr destRegion] ++ volAsm ++
        ["Rate bracket base: " ++ toString baseUsd ++ " USD (regional adj x" ++
          toString adjFactor ++ ")"])

/-- The OCEAN branch of `calculate`. -/
def oceanCompute (cfg : Config) (req : ManualQuoteRequestDto) (multiplier : ℚ) :
    ℚ × ℚ × List String :=
  let containerType := req.containerType.getD ManualContainerType.c40ft
  let originRegion := detectRegion req.origin
  let destRegion := detectRegion req.destination
  let baseUsd0 := OCEAN_BASE_USD originRegion containerType
  let isToNigeria := isNigeria req.destination
  let baseUsd := if !isToNigeria then round2 (baseUsd0 * 1.15) else baseUsd0
  let bafCaf := round2 (baseUsd * cfg.oceanBafCafPct)
  let ddDays := req.detentionDemurrageDays.getD 0
  let dd := if 0 < ddDays then ddDays * cfg.oceanDemurrageUsdPerDay else 0
  let surchargeUsd := cfg.oceanPortCongestionUsd + cfg.oceanDocumentationUsd + bafCaf + dd
  (baseUsd * cfg.usdToNgn * multiplier, surchargeUsd * cfg.usdToNgn * multiplier,
    ["Ocean container averages (2026), includes basic surcharges",
     "Origin region: " ++ regionStr originRegion ++ " | Destination region: " ++
       regionStr destRegion ++ " | Container: " ++ containerStr containerType] ++
      (if !isToNigeria then ["Non-Nigeria destination: +15% applied"] else []) ++
      (if 0 < ddDays then
        ["Includes detention/demurrage for " ++ toString ddDays ++ " days"]
       else []) ++
      ["Container " ++ containerStr containerType ++ ", baseUSD=" ++ toString baseUsd ++
        ", BAF/CAF=" ++ toString bafCaf ++ ", congestion=" ++
        toString cfg.oceanPortCongestionUsd ++ ", docs=" ++
        toString cfg.oceanDocumentationUsd])

/-- The AIR branch of `calculate`. -/
def airCompute (cfg : Config) (req : ManualQuoteRequestDto) (multiplier : ℚ) :
    ℚ × ℚ × List String :=
  let originRegion := detectRegion req.origin
  let destRegion := detectRegion req.destination
  let isExpress := req.isExpress.getD false
  let weightKg := req.weightKg.getD 0
  let volumetricKg := calculateVolumetricKg req volumeDivisorAir
  let chargeable0 := max weightKg (volumetricKg.getD 0)
  let chargeable := airChargeable cfg req
  let ratePerKgUsd := AIR_RATE_USD_PER_KG originRegion isExpress
  let baseUsd := chargeable * ratePerKgUsd
  let surchargeUsd := baseUsd * cfg.airSurchargePct
  (baseUsd * cfg.usdToNgn * multiplier, surchargeUsd * cfg.usdToNgn * multiplier,
    ["Air freight averages (2026) using chargeable weight",
     "Origin region: " ++ regionStr originRegion ++ " | Destination region: " ++
       regionStr destRegion ++ (if isExpress then " | Express" else "")] ++
      (match volumetricKg with
       | some _ => ["Volumetric divisor: (LxWxH cm)/" ++ toString volumeDivisorAir]
       | none => []) ++
      (if chargeable0 < cfg.airMinChargeableKg then
        ["Minimum chargeable weight applied: " ++ toString cfg.airMinChargeableKg ++ " kg"]
       else []) ++
      ["Rate used: " ++ toString ratePerKgUsd ++ "/kg (USD, " ++ regionStr originRegion ++
        ", " ++ (if isExpress then "express" else "standard") ++ ")"])

/-- The GROUND branch of `calculate`. -/
def groundCompute (cfg : Config) (req : ManualQuoteRequestDto) (multiplier : ℚ) :
    ℚ × ℚ × List String :=
  let oCity := resolveNigeriaCity (req.origin.getD "")
  let dCity := resolveNigeriaCity (req.destination.getD "")
  let km := req.distanceKm.getD 0
  let perKm := groundPerKm cfg req.origin req.destination km
  let baseNgn := km * perKm
  let surchargeNgn := baseNgn * cfg.groundSurchargePct
  (baseNgn * multiplier, surchargeNgn * multiplier,
    [(if oCity ≠ "" ∧ oCity = dCity then
        "Nigeria intra-city trucking (" ++ oCity ++ "): NGN " ++ toString perKm ++ "/km"
      else
        "Nigeria inter-city trucking (" ++ toString (round2 km) ++ " km): NGN " ++
          toString perKm ++ "/km (distance-tiered)"),
     "Nigeria domestic trucking averages (2026)",
     "Distance: " ++ toString (round2 km) ++ " km"])

/-- `finalizeBreakdown(mode, base, sur, assumptions)`. -/
def finalizeBreakdown (cfg : Config) (mode : ManualMode) (base sur : ℚ)
    (assumptions : List String) : ManualQuoteBreakdown :=
  let subtotal := base + sur
  let margin := subtotal * marginPct cfg mode
  let total := subtotal + margin
  { base := money base Currency.NGN
    surcharges := money sur Currency.NGN
    margin := money margin Currency.NGN
    total := money total Currency.NGN
    assumptions := assumptions }

/-- The shared prelude lines of `calculate`'s assumption list. -/
def calcPrelude (cfg : Config) (resolutionAssumptions : List String) : List String :=
  resolutionAssumptions ++
    ["Estimate only - send in a Quote request for real quote estimation (live pricing and availability).",
     "FX used: 1 USD = NGN " ++ toString cfg.usdToNgn]

/-- `calculate(mode, req, resolutionAssumptions)`. -/
def calculate (cfg : Config) (mode : ManualMode) (req : ManualQuoteRequestDto)
    (resolutionAssumptions : List String) : ManualQuote :=
  let assumptions0 := calcPrelude cfg resolutionAssumptions
  let multiplier := cfg.inflation2026 * marketMult cfg mode
  match mode with
  | ManualMode.parcel =>
    let t := parcelCompute cfg req multiplier
    { mode := ManualMode.parcel, origin := req.origin, destination := req.destination,
      chargeableWeightKg := none,
      breakdown := finalizeBreakdown cfg ManualMode.parcel t.1 t.2.1 (assumptions0 ++ t.2.2) }
  | ManualMode.ocean =>
    let t := oceanCompute cfg req multiplier
    { mode := ManualMode.ocean, origin := req.origin, destination := req.destination,
      chargeableWeightKg := none,
      breakdown := finalizeBreakdown cfg ManualMode.ocean t.1 t.2.1 (assumptions0 ++ t.2.2) }
  | ManualMode.air =>
    let t := airCompute cfg req multiplier
    { mode := ManualMode.air, origin := req.origin, destination := req.destination,
      chargeableWeightKg := some (round2 (airChargeable cfg req)),
      breakdown := finalizeBreakdown cfg ManualMode.air t.1 t.2.1 (assumptions0 ++ t.2.2) }
  | ManualMode.ground =>
    let t := groundCompute cfg req multiplier
    { mode := ManualMode.ground, origin := req.origin, destination := req.destination,
      chargeableWeightKg := none,
      breakdown := finalizeBreakdown cfg ManualMode.ground t.1 t.2.1 (assumptions0 ++ t.2.2) }

/-! ### `estimate`: validation, ground distance resolution, dispatch -/

/-- `distanceCacheKey(origin, destination)`. -/
def distanceCacheKey (origin destination : Option String) : String :=
  jsLower (jsTrim (origin.getD "")) ++ "|" ++ jsLower (jsTrim (destination.getD ""))

/-- The provider call of the ground branch: on a truthy resolved distance,
write the request and a 24h cache entry; otherwise leave everything as is. -/
def groundProviderStep (resolve : Resolver) (now : ℤ) (req : ManualQuoteRequestDto)
    (cache : DistCache) (key : String) :
    ManualQuoteRequestDto × DistCache × List String :=
  match resolve req with
  | some res =>
    if res.distanceKm ≠ 0 then
      ({ req with distanceKm := some res.distanceKm },
       cacheSet cache key
         { distanceKm := res.distanceKm, durationHours := res.durationHours,
           expires := now + 24 * 60 * 60 * 1000 },
       ("Distance source: " ++ res.source ++ " (" ++ toString (round2 res.distanceKm) ++
          " km)") ::
         (match res.durationHours with
          | some d => ["Drive time (estimate): " ++ toString (round2 d) ++ " hours"]
          | none => []))
    else (req, cache, [])
  | none => (req, cache, [])

/-- The ground distance-resolution block: a live cache entry wins, an
expired entry is evicted before the provider is consulted. -/
def groundResolveStep (resolve : Resolver) (now : ℤ) (req : ManualQuoteRequestDto)
    (cache : DistCache) : ManualQuoteRequestDto × DistCache × List String :=
  let key := distanceCacheKey req.origin req.destination
  match cacheGet cache key with
  | some cached =>
    if now < cached.expires then
      ({ req with distanceKm := some cached.distanceKm }, cache,
        ["Distance source: cache (" ++ toString (round2 cached.distanceKm) ++ " km)"])
    else groundProviderStep resolve now req (cacheDelete cache key) key
  | none => groundProviderStep resolve now req cache key

/-- The whole `if (mode === 'ground')` resolution block: only a ground-mode
request lacking a finite positive distance touches the cache. -/
def groundStep (resolve : Resolver) (now : ℤ) (mode : Option ManualMode)
    (req : ManualQuoteRequestDto) (cache : DistCache) :
    ManualQuoteRequestDto × DistCache × List String :=
  if mode = some ManualMode.ground then
    match req.distanceKm with
    | some k => if 0 < k then (req, cache, []) else groundResolveStep resolve now req cache
    | none => groundResolveStep resolve now req cache
  else (req, cache, [])

/-- `!Number.isFinite(Number(req.weightKg)) || w <= 0`. -/
def weightMissing (req : ManualQuoteRequestDto) : Bool :=
  match req.weightKg with
  | some w => w ≤ 0
  | none => true

/-- `!Number.isFinite(Number(req.distanceKm)) || km <= 0` (the final check
after resolution was attempted). -/
def distanceMissing (req : ManualQuoteRequestDto) : Bool :=
  match req.distanceKm with
  | some k => k ≤ 0
  | none => true

/-- The `missing` list of `estimate`, in the source's push order: `mode`,
`origin`, `destination`, then the mode-specific required field. -/
def missingList (mode : Option ManualMode) (req req2 : ManualQuoteRequestDto) :
    List String :=
  (if mode.isNone then ["mode"] else []) ++
  (if req.origin.isNone then ["origin"] else []) ++
  (if req.destination.isNone then ["destination"] else []) ++
  (if mode = some ManualMode.parcel ∨ mode = some ManualMode.air then
    (if weightMissing req then ["weightKg"] else [])
   else []) ++
  (if mode = some ManualMode.ocean then
    (if req.containerType.isNone then ["containerType"] else [])
   else []) ++
  (if mode = some ManualMode.ground then
    (if distanceMissing req2 then ["distanceKm"] else [])
   else [])

/-- `Array.from(new Set(missing))`: deduplicate keeping first occurrences. -/
def dedupFirst (l : List String) : List String :=
  l.foldl (fun acc x => if x ∈ acc then acc else acc ++ [x]) []

/-- The same-location error message. -/
def sameLocMessage : String :=
  "Origin and destination cannot be the same location. Please provide different addresses."

/-- The `ok` message. -/
def okMessage : String :=
  "Estimate only. Please send in a Quote request to get a real quote estimation (live pricing and availability)."

/-- The `needs_clarification` message. -/
def clarifyMessage : String := "Missing fields for manual quote"

/-- The catch-all error message (`e?.message || 'Manual estimate failed'`). -/
def failMessage : String := "Manual estimate failed"

/-- `estimate(dto)`: merge, validate, resolve ground distance, price.  The
untouched-or-updated distance cache is returned alongside the response.
The `none`-mode arm of the final dispatch mirrors the non-null assertion
`mode!` of the source; it is unreachable because an unresolved mode puts
`"mode"` into the missing list. -/
def estimate (cfg : Config) (resolve : Resolver) (now : ℤ)
    (dto : ManualQuoteRequestDto) (cache : DistCache) :
    ManualQuoteResponseDto × DistCache :=
  if sameLocation (estimateReq dto).origin (estimateReq dto).destination then
    ({ status := ManualQuoteStatus.error, message := some sameLocMessage,
       missingFields := none, quote := none }, cache)
  else
    let g := groundStep resolve now (estimateReq dto).mode (estimateReq dto) cache
    let missing := missingList (estimateReq dto).mode (estimateReq dto) g.1
    if missing.isEmpty then
      match (estimateReq dto).mode with
      | some m =>
        ({ status := ManualQuoteStatus.ok, message := some okMessage,
           missingFields := none, quote := some (calculate cfg m g.1 g.2.2) }, g.2.1)
      | none =>
        ({ status := ManualQuoteStatus.error, message := some failMessage,
           missingFields := none, quote := none }, g.2.1)
    else
      ({ status := ManualQuoteStatus.needs_clarification, message := some clarifyMessage,
         missingFields := some (dedupFirst missing), quote := none }, g.2.1)

/-! ## Helper lemmas -/

/-- `Math.round` is within one half of its argument (upper side). -/
theorem jsRound_le (q : ℚ) : (jsRound q : ℚ) ≤ q + 1/2 := by
  rw [jsRound_eq_floor]
  exact Int.floor_le _

/-- `Math.round` is within one half of its argument (lower side). -/
theorem lt_jsRound (q : ℚ) : q - 1/2 < (jsRound q : ℚ) := by
  have h := Int.sub_one_lt_floor (q + 1/2)
  rw [jsRound_eq_floor]
  linarith

/-- 2-decimal rounding moves an amount by at most half a cent. -/
theorem round2_err (x : ℚ) : |round2 x - x| ≤ 1/200 := by
  have h1 := jsRound_le (x * 100)
  have h2 := lt_jsRound (x * 100)
  rw [abs_le]
  unfold round2
  constructor <;> [skip; skip] <;> nlinarith

/-- 2-decimal rounding is monotone. -/
theorem round2_mono {x y : ℚ} (h : x ≤ y) : round2 x ≤ round2 y := by
  unfold round2
  have : jsRound (x * 100) ≤ jsRound (y * 100) := by
    rw [jsRound_eq_floor, jsRound_eq_floor]
    exact Int.floor_le_floor (by linarith)
  have hc : ((jsRound (x * 100) : ℤ) : ℚ) ≤ ((jsRound (y * 100) : ℤ) : ℚ) := by
    exact_mod_cast this
  linarith

/-- Rounding fixes exact cent amounts; in particular `round2 45 = 45`. -/
theorem round2_fortyfive : round2 45 = 45 := by
  unfold round2
  rw [jsRound_eq_floor]
  norm_num

/-- `dedupFirst` is the identity on duplicate-free lists
(generalised over the accumulator). -/
theorem dedupFirst_go (l : List String) :
    ∀ acc : List String, (acc ++ l).Nodup →
      List.foldl (fun acc x => if x ∈ acc then acc else acc ++ [x]) acc l = acc ++ l := by
  induction l with
  | nil => intro acc _; simp
  | cons x xs ih =>
    intro acc h
    have hx : x ∉ acc := by
      intro hmem
      have := List.disjoint_of_nodup_append h
      exact this hmem (by simp)
    have h' : ((acc ++ [x]) ++ xs).Nodup := by
      simpa [List.append_assoc] using h
    simp only [List.foldl_cons, if_neg hx]
    rw [ih (acc ++ [x]) h']
    simp

/-- `Array.from(new Set(l))` is `l` itself when `l` has no duplicates. -/
theorem dedupFirst_eq_self {l : List String} (h : l.Nodup) : dedupFirst l = l := by
  unfold dedupFirst
  simpa using dedupFirst_go l [] (by simpa using h)

/-- A `Map.set` binding is immediately visible to `Map.get`. -/
theorem cacheGet_cacheSet_self (c : DistCache) (k : String) (v : CacheEntry) :
    cacheGet (cacheSet c k v) k = some v := by
  simp [cacheGet, cacheSet, List.lookup]

/-- Every branch of `calculate` produces its breakdown through
`finalizeBreakdown` and reports the requested mode, origin and
destination. -/
theorem calculate_shape (cfg : Config) (m : ManualMode)
    (req : ManualQuoteRequestDto) (a : List String) :
    ∃ b s asm,
      (calculate cfg m req a).breakdown = finalizeBreakdown cfg m b s asm ∧
        (calculate cfg m req a).mode = m := by
  cases m <;> exact ⟨_, _, _, rfl, rfl⟩

/-- The money fields of `finalizeBreakdown` and the exact pre-rounding
margin/total identities, plus the accumulated-rounding bound on
`total - (base + surcharges + margin)`. -/
theorem finalizeBreakdown_spec (cfg : Config) (m : ManualMode) (b s : ℚ)
    (asm : List String) :
    (finalizeBreakdown cfg m b s asm).base.amount = round2 b ∧
    (finalizeBreakdown cfg m b s asm).surcharges.amount = round2 s ∧
    (finalizeBreakdown cfg m b s asm).margin.amount =
      round2 ((b + s) * marginPct cfg m) ∧
    (finalizeBreakdown cfg m b s asm).total.amount =
      round2 ((b + s) + (b + s) * marginPct cfg m) ∧
    |(finalizeBreakdown cfg m b s asm).total.amount -
        ((finalizeBreakdown cfg m b s asm).base.amount +
          (finalizeBreakdown cfg m b s asm).surcharges.amount +
          (finalizeBreakdown cfg m b s asm).margin.amount)| ≤ 1/50 := by
  refine ⟨rfl, rfl, rfl, rfl, ?_⟩
  have hb := abs_le.mp (round2_err b)
  have hs := abs_le.mp (round2_err s)
  have hm := abs_le.mp (round2_err ((b + s) * marginPct cfg m))
  have ht := abs_le.mp (round2_err ((b + s) + (b + s) * marginPct cfg m))
  show |round2 ((b + s) + (b + s) * marginPct cfg m) -
      (round2 b + round2 s + round2 ((b + s) * marginPct cfg m))| ≤ 1/50
  rw [abs_le]
  constructor <;> linarith [hb.1, hb.2, hs.1, hs.2, hm.1, hm.2, ht.1, ht.2]

/-- All four money fields of `finalizeBreakdown` carry the fixed local
currency. -/
theorem finalizeBreakdown_currency (cfg : Config) (m : ManualMode) (b s : ℚ)
    (asm : List String) :
    (finalizeBreakdown cfg m b s asm).base.currency = Currency.NGN ∧
    (finalizeBreakdown cfg m b s asm).surcharges.currency = Currency.NGN ∧
    (finalizeBreakdown cfg m b s asm).margin.currency = Currency.NGN ∧
    (finalizeBreakdown cfg m b s asm).total.currency = Currency.NGN :=
  ⟨rfl, rfl, rfl, rfl⟩

/-- An unresolved mode always contributes `"mode"` to the missing list. -/
theorem missingList_none_ne_nil (req req2 : ManualQuoteRequestDto) :
    missingList none req req2 ≠ [] := by
  simp [missingList]

/-- Inversion of a successful `estimate`: the response's quote is
`calculate` applied to the resolved mode and the post-resolution request. -/
theorem estimate_ok_quote (cfg : Config) (resolve : Resolver) (now : ℤ)
    (dto : ManualQuoteRequestDto) (cache : DistCache)
    (h : ((estimate cfg resolve now dto cache).1).status = ManualQuoteStatus.ok) :
    ∃ m, (estimateReq dto).mode = some m ∧
      (estimate cfg resolve now dto cache).1.quote =
        some (calculate cfg m
          (groundStep resolve now (estimateReq dto).mode (estimateReq dto) cache).1
          (groundStep resolve now (estimateReq dto).mode (estimateReq dto) cache).2.2) := by
  by_cases hs : sameLocation (estimateReq dto).origin (estimateReq dto).destination = true
  · simp [estimate, hs] at h
  · rcases hmode : (estimateReq dto).mode with _ | m
    · exfalso
      by_cases hE : (missingList (estimateReq dto).mode (estimateReq dto)
          (groundStep resolve now (estimateReq dto).mode (estimateReq dto) cache).1).isEmpty = true
      · rw [List.isEmpty_iff, hmode] at hE
        exact missingList_none_ne_nil _ _ hE
      · simp [estimate, hs, hE] at h
    · by_cases hE : (missingList (estimateReq dto).mode (estimateReq dto)
          (groundStep resolve now (estimateReq dto).mode (estimateReq dto) cache).1).isEmpty = true
      · rw [hmode, List.isEmpty_iff] at hE
        refine ⟨m, rfl, ?_⟩
        simp [estimate, hs, hmode, hE]
      · simp [estimate, hs, hE] at h

/-- A merged origin/destination/freeText field always comes from
`normStrField`. -/
theorem estimateReq_origin_shape (dto : ManualQuoteRequestDto) :
    ∃ x, (estimateReq dto).origin = normStrField x :=
  ⟨_, rfl⟩

/-- A merged destination field always comes from `normStrField`. -/
theorem estimateReq_destination_shape (dto : ManualQuoteRequestDto) :
    ∃ x, (estimateReq dto).destination = normStrField x :=
  ⟨_, rfl⟩

/-- `normStrField` never produces the empty string. -/
theorem normStrField_ne_empty {x : Option String} {o : String}
    (h : normStrField x = some o) : o ≠ "" := by
  unfold normStrField at h
  by_cases hs : jsTrim (x.getD "") = ""
  · simp [hs] at h
  · simp only [hs, if_false] at h
    rcases h with h
    intro hcontra
    exact hs (by rw [← Option.some.injEq] at h; cases h; exact hcontra)

/-- Claim C1: whenever `estimate` returns status `ok`, the returned
breakdown's margin and total are the 2-decimal roundings of the exact
values `(base + surcharges) * marginPercent[mode]` and
`base + surcharges + margin` (so the margin relation is exact before
rounding — "within floating-point tolerance"), the rounded output amounts
satisfy `total = base + surcharges + margin` up to the accumulated
2-decimal rounding error (at most 1/50), and the default margin
percentages are parcel 0.275, ocean 0.2, air 0.25, ground 0.4. -/
theorem rates_c1_ok_breakdown_invariant (cfg : Config) (resolve : Resolver)
    (now : ℤ) (dto : ManualQuoteRequestDto) (cache : DistCache)
    (hok : ((estimate cfg resolve now dto cache).1).status = ManualQuoteStatus.ok) :
    ∃ q m b s,
      (estimate cfg resolve now dto cache).1.quote = some q ∧
      q.mode = m ∧
      q.breakdown.base.amount = round2 b ∧
      q.breakdown.surcharges.amount = round2 s ∧
      q.breakdown.margin.amount = round2 ((b + s) * marginPct cfg m) ∧
      q.breakdown.total.amount = round2 ((b + s) + (b + s) * marginPct cfg m) ∧
      |q.breakdown.total.amount -
          (q.breakdown.base.amount + q.breakdown.surcharges.amount +
            q.breakdown.margin.amount)| ≤ 1/50 ∧
      marginPct defaultConfig ManualMode.parcel = 0.275 ∧
      marginPct defaultConfig ManualMode.ocean = 0.2 ∧
      marginPct defaultConfig ManualMode.air = 0.25 ∧
      marginPct defaultConfig ManualMode.ground = 0.4 := by
  obtain ⟨m, _, hq⟩ := estimate_ok_quote cfg resolve now dto cache hok
  obtain ⟨b, s, asm, hbd, hmode⟩ :=
    calculate_shape cfg m
      (groundStep resolve now (estimateReq dto).mode (estimateReq dto) cache).1
      (groundStep resolve now (estimateReq dto).mode (estimateReq dto) cache).2.2
  obtain ⟨h1, h2, h3, h4, h5⟩ := finalizeBreakdown_spec cfg m b s asm
  exact ⟨_, m, b, s, hq, hmode,
    by rw [hbd]; exact h1, by rw [hbd]; exact h2, by rw [hbd]; exact h3,
    by rw [hbd]; exact h4, by rw [hbd]; exact h5, rfl, rfl, rfl, rfl⟩

/-- Witness for C1 at a concrete ground request. -/
theorem rates_c1_ok_breakdown_invariant_witness :
    ∃ q m b s,
      (estimate defaultConfig (fun _ => none) 0
          { mode := some ManualMode.ground, origin := some "Ikeja",
            destination := some "Epe", distanceKm := some 10 }
          ([] : DistCache)).1.quote = some q ∧
      q.mode = m ∧
      q.breakdown.base.amount = round2 b ∧
      q.breakdown.surcharges.amount = round2 s ∧
      q.breakdown.margin.amount = round2 ((b + s) * marginPct defaultConfig m) ∧
      q.breakdown.total.amount =
        round2 ((b + s) + (b + s) * marginPct defaultConfig m) ∧
      |q.breakdown.total.amount -
          (q.breakdown.base.amount + q.breakdown.surcharges.amount +
            q.breakdown.margin.amount)| ≤ 1/50 ∧
      marginPct defaultConfig ManualMode.parcel = 0.275 ∧
      marginPct defaultConfig ManualMode.ocean = 0.2 ∧
      marginPct defaultConfig ManualMode.air = 0.25 ∧
      marginPct defaultConfig ManualMode.ground = 0.4 :=
  rates_c1_ok_breakdown_invariant defaultConfig (fun _ => none) 0
    { mode := some ManualMode.ground, origin := some "Ikeja",
      destination := some "Epe", distanceKm := some 10 } ([] : DistCache)
    (by decide)

/-- Claim C2: when the effective origin and destination are both present
(the merger only keeps them when non-empty after trimming) and equal after
case- and trim-insensitive normalisation, `estimate` returns the structured
same-location `error` response, leaves the distance cache untouched and
does no mode-specific pricing work (the result does not depend on the mode,
any other field, or the distance resolver). -/
theorem rates_c2_same_location_error (cfg : Config) (resolve : Resolver)
    (now : ℤ) (dto : ManualQuoteRequestDto) (cache : DistCache) (o d : String)
    (ho : (estimateReq dto).origin = some o)
    (hd : (estimateReq dto).destination = some d)
    (heq : jsTrim (jsLower o) = jsTrim (jsLower d)) :
    estimate cfg resolve now dto cache =
      ({ status := ManualQuoteStatus.error, message := some sameLocMessage,
         missingFields := none, quote := none }, cache) := by
  have hno : o ≠ "" := by
    obtain ⟨x, hx⟩ := estimateReq_origin_shape dto
    exact normStrField_ne_empty (hx ▸ ho)
  have hnd : d ≠ "" := by
    obtain ⟨x, hx⟩ := estimateReq_destination_shape dto
    exact normStrField_ne_empty (hx ▸ hd)
  have hsl : sameLocation (estimateReq dto).origin (estimateReq dto).destination = true := by
    rw [ho, hd]
    simp [sameLocation, hno, hnd, heq]
  simp [estimate, hsl]

/-- Witness for C2: origin `"Lagos"`, destination `" lagos "`. -/
theorem rates_c2_same_location_error_witness :
    estimate defaultConfig (fun _ => none) 0
        { origin := some "Lagos", destination := some " lagos ",
          mode := some ManualMode.parcel, weightKg := some 1 } ([] : DistCache) =
      ({ status := ManualQuoteStatus.error, message := some sameLocMessage,
         missingFields := none, quote := none }, ([] : DistCache)) :=
  rates_c2_same_location_error defaultConfig (fun _ => none) 0
    { origin := some "Lagos", destination := some " lagos ",
      mode := some ManualMode.parcel, weightKg := some 1 } ([] : DistCache)
    "Lagos" "lagos" (by decide) (by decide) (by decide)

/-- Claim C8: whenever both the 40hc-style pattern
(`\b40\s*hc\b|\b40hc\b|\b40\s*high\s*cube\b`) and the plain 40ft pattern
(`\b40\s*(ft|feet)\b|\b40ft\b`) match a free-text message, the extractor
sets `containerType` to `'40hc'` — the 40hc branch takes precedence
because the 40ft assignment sits on its `else`. -/
theorem rates_c8_forty_hc_precedence (t : String)
    (h1 : anyToken [gapTok ["40", "hc"], wordTok "40hc", gapTok ["40", "high", "cube"]]
        (jsLower t).toList = true)
    (h2 : anyToken [gapTok ["40", "ft"], gapTok ["40", "feet"], wordTok "40ft"]
        (jsLower t).toList = true) :
    (extractFromText t).containerType = some ManualContainerType.c40hc := by
  simp only [String.toList] at h1
  simp [extractFromText, containerTypeOf, h1]

/-- Witness for C8: `"40hc and 40ft"` matches both patterns. -/
theorem rates_c8_forty_hc_precedence_witness :
    anyToken [gapTok ["40", "hc"], wordTok "40hc", gapTok ["40", "high", "cube"]]
        (jsLower "40hc and 40ft").toList = true ∧
    anyToken [gapTok ["40", "ft"], gapTok ["40", "feet"], wordTok "40ft"]
        (jsLower "40hc and 40ft").toList = true ∧
    (extractFromText "40hc and 40ft").containerType = some ManualContainerType.c40hc :=
  ⟨by decide, by decide,
    rates_c8_forty_hc_precedence "40hc and 40ft" (by decide) (by decide)⟩

/-- Claim C9 (implicit): `estimate` returns status `error` exactly when the
effective origin and destination are present and equal after case/trim
normalisation (`sameLocation`); for every other input the status is `ok`
or `needs_clarification` — the catch-all error arm around `calculate`
(modelled by the unreachable `none`-mode dispatch arm) is never taken. -/
theorem rates_c9_error_iff_same_location (cfg : Config) (resolve : Resolver)
    (now : ℤ) (dto : ManualQuoteRequestDto) (cache : DistCache) :
    (((estimate cfg resolve now dto cache).1).status = ManualQuoteStatus.error ↔
      sameLocation (estimateReq dto).origin (estimateReq dto).destination = true) ∧
    (sameLocation (estimateReq dto).origin (estimateReq dto).destination = false →
      ((estimate cfg resolve now dto cache).1).status = ManualQuoteStatus.ok ∨
        ((estimate cfg resolve now dto cache).1).status =
          ManualQuoteStatus.needs_clarification) := by
  by_cases hs : sameLocation (estimateReq dto).origin (estimateReq dto).destination = true
  · constructor
    · simp [estimate, hs]
    · intro hfalse
      rw [hs] at hfalse
      cases hfalse
  · have hstat :
        ((estimate cfg resolve now dto cache).1).status = ManualQuoteStatus.ok ∨
          ((estimate cfg resolve now dto cache).1).status =
            ManualQuoteStatus.needs_clarification := by
      rcases hmode : (estimateReq dto).mode with _ | m
      · right
        have hne : missingList (estimateReq dto).mode (estimateReq dto)
            (groundStep resolve now (estimateReq dto).mode (estimateReq dto) cache).1 ≠ [] := by
          rw [hmode]
          exact missingList_none_ne_nil _ _
        have hE : ¬(missingList (estimateReq dto).mode (estimateReq dto)
            (groundStep resolve now (estimateReq dto).mode (estimateReq dto) cache).1).isEmpty = true := by
          rw [List.isEmpty_iff]
          exact hne
        simp [estimate, hs, hE]
      · by_cases hE : (missingList (estimateReq dto).mode (estimateReq dto)
            (groundStep resolve now (estimateReq dto).mode (estimateReq dto) cache).1).isEmpty = true
        · left
          rw [hmode, List.isEmpty_iff] at hE
          simp [estimate, hs, hmode, hE]
        · right
          simp [estimate, hs, hE]
    refine ⟨?_, fun _ => hstat⟩
    constructor
    · intro herr
      rcases hstat with hstat | hstat <;> rw [herr] at hstat <;> cases hstat
    · intro htrue
      exact absurd htrue hs

/-- Witness for C9 at a concrete same-location input: the `mpr` direction
produces the `error` status. -/
theorem rates_c9_error_iff_same_location_witness :
    ((estimate defaultConfig (fun _ => none) 0
        { origin := some "Abuja", destination := some "ABUJA" }
        ([] : DistCache)).1).status = ManualQuoteStatus.error :=
  (rates_c9_error_iff_same_location defaultConfig (fun _ => none) 0
    { origin := some "Abuja", destination := some "ABUJA" } ([] : DistCache)).1.mpr
    (by decide)

/-- The resolution block leaves the request and cache untouched when the
mode is not ground. -/
theorem groundStep_not_ground (resolve : Resolver) (now : ℤ)
    (mode : Option ManualMode) (req : ManualQuoteRequestDto) (cache : DistCache)
    (h : mode ≠ some ManualMode.ground) :
    groundStep resolve now mode req cache = (req, cache, []) := by
  simp [groundStep, h]

/-- The resolution block is skipped for a ground request that already
carries a finite positive distance. -/
theorem groundStep_has_distance (resolve : Resolver) (now : ℤ)
    (mode : Option ManualMode) (req : ManualQuoteRequestDto) (cache : DistCache)
    (k : ℚ) (hk : req.distanceKm = some k) (hpos : 0 < k) :
    groundStep resolve now mode req cache = (req, cache, []) := by
  unfold groundStep
  by_cases h : mode = some ManualMode.ground
  · simp [h, hk, hpos]
  · simp [h]

/-- Claim C10 (implicit): the distance cache is only touched by ground-mode
requests lacking a usable distance; any request whose resolved mode is not
`ground`, and any ground request whose effective `distanceKm` is a finite
positive number, leaves the cache completely unchanged. -/
theorem rates_c10_cache_frame (cfg : Config) (resolve : Resolver) (now : ℤ)
    (dto : ManualQuoteRequestDto) (cache : DistCache)
    (h : (estimateReq dto).mode ≠ some ManualMode.ground ∨
      ∃ k, (estimateReq dto).distanceKm = some k ∧ 0 < k) :
    (estimate cfg resolve now dto cache).2 = cache := by
  have hg : groundStep resolve now (estimateReq dto).mode (estimateReq dto) cache =
      ((estimateReq dto), cache, []) := by
    rcases h with h | ⟨k, hk, hpos⟩
    · exact groundStep_not_ground resolve now _ _ cache h
    · exact groundStep_has_distance resolve now _ _ cache k hk hpos
  by_cases hs : sameLocation (estimateReq dto).origin (estimateReq dto).destination = true
  · simp [estimate, hs]
  · simp only [estimate, hs, Bool.false_eq_true, if_false, hg]
    split
    · split <;> rfl
    · rfl

/-- Witness for C10: an air request leaves the (nonempty) cache unchanged. -/
theorem rates_c10_cache_frame_witness :
    (estimate defaultConfig (fun _ => none) 0
        { mode := some ManualMode.air, origin := some "London",
          destination := some "Lagos", weightKg := some 10 }
        [("a|b", { distanceKm := 5, durationHours := none, expires := 99 })]).2 =
      [("a|b", { distanceKm := 5, durationHours := none, expires := 99 })] :=
  rates_c10_cache_frame defaultConfig (fun _ => none) 0
    { mode := some ManualMode.air, origin := some "London",
      destination := some "Lagos", weightKg := some 10 }
    [("a|b", { distanceKm := 5, durationHours := none, expires := 99 })]
    (Or.inl (by decide))

/-- Inversion of a successful `estimate`: no required field was missing. -/
theorem estimate_ok_missing (cfg : Config) (resolve : Resolver) (now : ℤ)
    (dto : ManualQuoteRequestDto) (cache : DistCache)
    (h : ((estimate cfg resolve now dto cache).1).status = ManualQuoteStatus.ok) :
    missingList (estimateReq dto).mode (estimateReq dto)
      (groundStep resolve now (estimateReq dto).mode (estimateReq dto) cache).1 = [] := by
  by_cases hs : sameLocation (estimateReq dto).origin (estimateReq dto).destination = true
  · simp [estimate, hs] at h
  · by_cases hE : (missingList (estimateReq dto).mode (estimateReq dto)
        (groundStep resolve now (estimateReq dto).mode (estimateReq dto) cache).1).isEmpty = true
    · exact List.isEmpty_iff.mp hE
    · simp [estimate, hs, hE] at h

/-- `weightMissing` is false exactly on a finite positive weight. -/
theorem weightMissing_false {req : ManualQuoteRequestDto}
    (h : weightMissing req = false) : ∃ w, req.weightKg = some w ∧ 0 < w := by
  unfold weightMissing at h
  rcases hreq : req.weightKg with _ | w
  · rw [hreq] at h; cases h
  · rw [hreq] at h
    refine ⟨w, rfl, ?_⟩
    by_contra hc
    push_neg at hc
    simp [hc] at h

/-- JS `chargeable < min ? min : chargeable` is a `max`. -/
theorem ite_lt_eq_max (a b : ℚ) : (if a < b then b else a) = max a b := by
  by_cases h : a < b
  · simp [h, max_eq_right (le_of_lt h)]
  · simp [h, max_eq_left (le_of_not_lt h)]

/-- Claim C4: a successful air-mode estimate carries
`chargeableWeightKg = round2 (max (max actual volumetric) minChargeable)`;
it is never below the rounded configured minimum, and never below 45 when
the configuration is the default. -/
theorem rates_c4_air_min_chargeable (cfg : Config) (resolve : Resolver)
    (now : ℤ) (dto : ManualQuoteRequestDto) (cache : DistCache)
    (hok : ((estimate cfg resolve now dto cache).1).status = ManualQuoteStatus.ok)
    (hmode : (estimateReq dto).mode = some ManualMode.air) :
    ∃ q w,
      (estimate cfg resolve now dto cache).1.quote = some q ∧
      (estimateReq dto).weightKg = some w ∧ 0 < w ∧
      q.chargeableWeightKg =
        some (round2 (max
          (max w ((calculateVolumetricKg (estimateReq dto) volumeDivisorAir).getD 0))
          cfg.airMinChargeableKg)) ∧
      round2 cfg.airMinChargeableKg ≤
        round2 (max
          (max w ((calculateVolumetricKg (estimateReq dto) volumeDivisorAir).getD 0))
          cfg.airMinChargeableKg) ∧
      (cfg = defaultConfig → (45 : ℚ) ≤
        round2 (max
          (max w ((calculateVolumetricKg (estimateReq dto) volumeDivisorAir).getD 0))
          cfg.airMinChargeableKg)) := by
  obtain ⟨m, hm, hq⟩ := estimate_ok_quote cfg resolve now dto cache hok
  rw [hmode] at hm
  cases hm
  have hg : groundStep resolve now (estimateReq dto).mode (estimateReq dto) cache =
      ((estimateReq dto), cache, []) :=
    groundStep_not_ground resolve now _ _ cache (by rw [hmode]; simp)
  rw [hg] at hq
  have hmiss := estimate_ok_missing cfg resolve now dto cache hok
  rw [hg] at hmiss
  have hw : weightMissing (estimateReq dto) = false := by
    by_contra hc
    rw [Bool.not_eq_false] at hc
    simp [missingList, hmode, hc] at hmiss
  obtain ⟨w, hwval, hwpos⟩ := weightMissing_false hw
  have hcharge : airChargeable cfg (estimateReq dto) =
      max (max w ((calculateVolumetricKg (estimateReq dto) volumeDivisorAir).getD 0))
        cfg.airMinChargeableKg := by
    unfold airChargeable
    rw [hwval]
    simp only [Option.getD_some]
    exact ite_lt_eq_max _ _
  refine ⟨_, w, hq, hwval, hwpos, ?_, ?_, ?_⟩
  · show (calculate cfg ManualMode.air (estimateReq dto) []).chargeableWeightKg = _
    rw [show (calculate cfg ManualMode.air (estimateReq dto) []).chargeableWeightKg =
      some (round2 (airChargeable cfg (estimateReq dto))) from rfl, hcharge]
  · exact round2_mono (le_max_right _ _)
  · intro hdef
    subst hdef
    calc (45 : ℚ) = round2 45 := round2_fortyfive.symm
    _ ≤ _ := round2_mono (le_max_right _ _)

/-- The concrete air request used by the C4 witness. -/
def c4WitnessDto : ManualQuoteRequestDto :=
  { mode := some ManualMode.air, origin := some "Shanghai",
    destination := some "Lagos", weightKg := some 10 }

/-- Witness for C4: 10 kg from Shanghai to Lagos by air, floored at 45 kg. -/
theorem rates_c4_air_min_chargeable_witness :
    ∃ q w,
      (estimate defaultConfig (fun _ => none) 0 c4WitnessDto
          ([] : DistCache)).1.quote = some q ∧
      (estimateReq c4WitnessDto).weightKg = some w ∧
      0 < w ∧
      q.chargeableWeightKg =
        some (round2 (max
          (max w ((calculateVolumetricKg (estimateReq c4WitnessDto)
            volumeDivisorAir).getD 0))
          defaultConfig.airMinChargeableKg)) ∧
      round2 defaultConfig.airMinChargeableKg ≤
        round2 (max
          (max w ((calculateVolumetricKg (estimateReq c4WitnessDto)
            volumeDivisorAir).getD 0))
          defaultConfig.airMinChargeableKg) ∧
      (defaultConfig = defaultConfig → (45 : ℚ) ≤
        round2 (max
          (max w ((calculateVolumetricKg (estimateReq c4WitnessDto)
            volumeDivisorAir).getD 0))
          defaultConfig.airMinChargeableKg)) :=
  rates_c4_air_min_chargeable defaultConfig (fun _ => none) 0 c4WitnessDto
    ([] : DistCache) (by decide) (by decide)

/-- The end-to-end scenario request `{freeText: "10kg from China to Lagos by air"}`
run against the default configuration, an empty distance cache and a
provider chain that is never consulted. -/
def c6Response : ManualQuoteResponseDto :=
  (estimate defaultConfig (fun _ => none) 0
    { freeText := some "10kg from China to Lagos by air" } ([] : DistCache)).1

unseal Rat.mul Rat.add Rat.inv Rat.ofScientific in
/-- Claim C6: for `{freeText: "10kg from China to Lagos by air"}` (no other
fields), `estimate` returns status `ok` with mode `air`, a chargeable
weight of at least 45 kg, and every monetary amount of the breakdown
denominated in the fixed local currency NGN. -/
theorem rates_c6_freetext_air_scenario :
    c6Response.status = ManualQuoteStatus.ok ∧
    c6Response.quote.map ManualQuote.mode = some ManualMode.air ∧
    (45 : ℚ) ≤ (c6Response.quote.bind ManualQuote.chargeableWeightKg).getD 0 ∧
    c6Response.quote.map (fun q => q.breakdown.total.currency) = some Currency.NGN ∧
    c6Response.quote.map (fun q => q.breakdown.base.currency) = some Currency.NGN ∧
    c6Response.quote.map (fun q => q.breakdown.surcharges.currency) = some Currency.NGN ∧
    c6Response.quote.map (fun q => q.breakdown.margin.currency) = some Currency.NGN := by
  refine ⟨?_, ?_, ?_, ?_, ?_, ?_, ?_⟩ <;> decide

/-- `distanceMissing` is false exactly on a finite positive distance. -/
theorem distanceMissing_false {req : ManualQuoteRequestDto}
    (h : distanceMissing req = false) : ∃ k, req.distanceKm = some k ∧ 0 < k := by
  unfold distanceMissing at h
  rcases hreq : req.distanceKm with _ | k
  · rw [hreq] at h; cases h
  · rw [hreq] at h
    refine ⟨k, rfl, ?_⟩
    by_contra hc
    push_neg at hc
    simp [hc] at h

/-- The inter-city tier never charges more per km for a longer trip. -/
theorem interCityPerKm_antitone (k1 k2 : ℚ) (h : k1 ≤ k2) :
    interCityPerKm k2 ≤ interCityPerKm k1 := by
  unfold interCityPerKm
  split_ifs <;> linarith

/-- Claim C5: every ground-mode request that reaches pricing is priced from
`base = distanceKm × perKm` (scaled by the shared inflation×market
multiplier and rounded at output): the per-km rate is the city's flat
intra-city rate when origin and destination resolve to the same recognised
city (350/300/280/300 NGN for lagos/abuja/kano/ph, the generic configured
fallback otherwise), and the distance-tiered rate otherwise — a tier
function with at least three distinct tiers whose per-km rate never
increases with distance. -/
theorem rates_c5_ground_rates (cfg : Config) (resolve : Resolver) (now : ℤ)
    (dto : ManualQuoteRequestDto) (cache : DistCache)
    (hok : ((estimate cfg resolve now dto cache).1).status = ManualQuoteStatus.ok)
    (hmode : (estimateReq dto).mode = some ManualMode.ground) :
    ∃ q req2 km,
      (estimate cfg resolve now dto cache).1.quote = some q ∧
      req2 = (groundStep resolve now (estimateReq dto).mode (estimateReq dto) cache).1 ∧
      req2.distanceKm = some km ∧ 0 < km ∧
      q.breakdown.base.amount =
        round2 (km * groundPerKm cfg req2.origin req2.destination km *
          (cfg.inflation2026 * marketMult cfg ManualMode.ground)) ∧
      q.breakdown.surcharges.amount =
        round2 (km * groundPerKm cfg req2.origin req2.destination km *
          cfg.groundSurchargePct * (cfg.inflation2026 * marketMult cfg ManualMode.ground)) ∧
      (∀ c, c ≠ "" → resolveNigeriaCity (req2.origin.getD "") = c →
        resolveNigeriaCity (req2.destination.getD "") = c →
        groundPerKm cfg req2.origin req2.destination km = intraCityRateNgn cfg c) ∧
      (¬(resolveNigeriaCity (req2.origin.getD "") ≠ "" ∧
          resolveNigeriaCity (req2.origin.getD "") =
            resolveNigeriaCity (req2.destination.getD "")) →
        groundPerKm cfg req2.origin req2.destination km = interCityPerKm km) ∧
      intraCityRateNgn cfg "lagos" = 350 ∧ intraCityRateNgn cfg "abuja" = 300 ∧
      intraCityRateNgn cfg "kano" = 280 ∧ intraCityRateNgn cfg "ph" = 300 ∧
      (∀ c, c ≠ "lagos" → c ≠ "abuja" → c ≠ "kano" → c ≠ "ph" →
        intraCityRateNgn cfg c = cfg.groundNgnPerKm) ∧
      (∀ k1 k2 : ℚ, k1 ≤ k2 → interCityPerKm k2 ≤ interCityPerKm k1) ∧
      interCityPerKm 50 = 350 ∧ interCityPerKm 200 = 300 ∧
      interCityPerKm 500 = 260 ∧ interCityPerKm 700 = 230 := by
  obtain ⟨m, hm, hq⟩ := estimate_ok_quote cfg resolve now dto cache hok
  rw [hmode] at hm
  cases hm
  have hmiss := estimate_ok_missing cfg resolve now dto cache hok
  have hd : distanceMissing
      (groundStep resolve now (estimateReq dto).mode (estimateReq dto) cache).1 = false := by
    by_contra hc
    rw [Bool.not_eq_false] at hc
    rw [hmode] at hc
    simp [missingList, hmode, hc] at hmiss
  obtain ⟨km, hkm, hkmpos⟩ := distanceMissing_false hd
  refine ⟨_, _, km, hq, rfl, hkm, hkmpos, ?_, ?_, ?_, ?_, ?_, ?_, ?_, ?_, ?_,
    interCityPerKm_antitone, by norm_num [interCityPerKm], by norm_num [interCityPerKm],
    by norm_num [interCityPerKm], by norm_num [interCityPerKm]⟩
  · show round2 (((groundStep resolve now (estimateReq dto).mode (estimateReq dto)
        cache).1.distanceKm.getD 0) * _ * _) = _
    rw [hkm]
    rfl
  · show round2 (((groundStep resolve now (estimateReq dto).mode (estimateReq dto)
        cache).1.distanceKm.getD 0) * _ * _ * _) = _
    rw [hkm]
    rfl
  · intro c hc ho hd'
    simp only [groundPerKm, ho, hd']
    simp [hc]
  · intro hn
    simp only [groundPerKm]
    rw [if_neg hn]
  · simp [intraCityRateNgn]
  · simp [intraCityRateNgn]
  · simp [intraCityRateNgn]
  · simp [intraCityRateNgn]
  · intro c h1 h2 h3 h4
    simp [intraCityRateNgn, h1, h2, h3, h4]

/-- The concrete ground request used by the C5 witness. -/
def c5WitnessDto : ManualQuoteRequestDto :=
  { mode := some ManualMode.ground, origin := some "Lagos",
    destination := some "Kano", distanceKm := some 1000 }

/-- Witness for C5: Lagos → Kano at 1000 km (inter-city tier). -/
theorem rates_c5_ground_rates_witness :
    ∃ q req2 km,
      (estimate defaultConfig (fun _ => none) 0 c5WitnessDto
          ([] : DistCache)).1.quote = some q ∧
      req2 = (groundStep (fun _ => none) 0 (estimateReq c5WitnessDto).mode
        (estimateReq c5WitnessDto) ([] : DistCache)).1 ∧
      req2.distanceKm = some km ∧ 0 < km ∧
      q.breakdown.base.amount =
        round2 (km * groundPerKm defaultConfig req2.origin req2.destination km *
          (defaultConfig.inflation2026 * marketMult defaultConfig ManualMode.ground)) ∧
      q.breakdown.surcharges.amount =
        round2 (km * groundPerKm defaultConfig req2.origin req2.destination km *
          defaultConfig.groundSurchargePct *
          (defaultConfig.inflation2026 * marketMult defaultConfig ManualMode.ground)) ∧
      (∀ c, c ≠ "" → resolveNigeriaCity (req2.origin.getD "") = c →
        resolveNigeriaCity (req2.destination.getD "") = c →
        groundPerKm defaultConfig req2.origin req2.destination km =
          intraCityRateNgn defaultConfig c) ∧
      (¬(resolveNigeriaCity (req2.origin.getD "") ≠ "" ∧
          resolveNigeriaCity (req2.origin.getD "") =
            resolveNigeriaCity (req2.destination.getD "")) →
        groundPerKm defaultConfig req2.origin req2.destination km = interCityPerKm km) ∧
      intraCityRateNgn defaultConfig "lagos" = 350 ∧
      intraCityRateNgn defaultConfig "abuja" = 300 ∧
      intraCityRateNgn defaultConfig "kano" = 280 ∧
      intraCityRateNgn defaultConfig "ph" = 300 ∧
      (∀ c, c ≠ "lagos" → c ≠ "abuja" → c ≠ "kano" → c ≠ "ph" →
        intraCityRateNgn defaultConfig c = defaultConfig.groundNgnPerKm) ∧
      (∀ k1 k2 : ℚ, k1 ≤ k2 → interCityPerKm k2 ≤ interCityPerKm k1) ∧
      interCityPerKm 50 = 350 ∧ interCityPerKm 200 = 300 ∧
      interCityPerKm 500 = 260 ∧ interCityPerKm 700 = 230 :=
  rates_c5_ground_rates defaultConfig (fun _ => none) 0 c5WitnessDto
    ([] : DistCache) (by decide) (by decide)

/-- A concatenation of three optional distinct singletons is
duplicate-free. -/
theorem missing_concat_nodup (a b c : Bool) (x y z : String)
    (hxy : x ≠ y) (hxz : x ≠ z) (hyz : y ≠ z) :
    ((if a then [x] else []) ++ (if b then [y] else []) ++
      (if c then [z] else [])).Nodup := by
  cases a <;> cases b <;> cases c <;> simp [hxy, hxz, hyz]

/-- Membership in a concatenation of three optional singletons. -/
theorem missing_concat_mem (a b c : Bool) (x y z f : String) :
    f ∈ ((if a then [x] else []) ++ (if b then [y] else []) ++
        (if c then [z] else [])) ↔
      (f = x ∧ a = true) ∨ (f = y ∧ b = true) ∨ (f = z ∧ c = true) := by
  cases a <;> cases b <;> cases c <;> simp

/-- The name of the mode-specific required field checked by `estimate`
(beyond origin and destination). -/
def modeRequiredField : ManualMode → String
  | ManualMode.parcel => "weightKg"
  | ManualMode.air => "weightKg"
  | ManualMode.ocean => "containerType"
  | ManualMode.ground => "distanceKm"

/-- Whether the mode-specific required field is missing/invalid, per the
checks of `estimate` (for ground, after resolution was attempted). -/
def modeFieldMissing (resolve : Resolver) (now : ℤ) (cache : DistCache)
    (m : ManualMode) (req : ManualQuoteRequestDto) : Bool :=
  match m with
  | ManualMode.parcel => weightMissing req
  | ManualMode.air => weightMissing req
  | ManualMode.ocean => req.containerType.isNone
  | ManualMode.ground =>
    distanceMissing (groundStep resolve now req.mode req cache).1

/-- Claim C3: a request with a resolvable mode, origin and destination not
the same location, and at least one of that mode's required fields missing
(parcel/air: origin, destination, weightKg; ocean: origin, destination,
containerType; ground: origin, destination, distanceKm after resolution is
attempted) gets status `needs_clarification` whose `missingFields` is
exactly the list of missing required fields, deduplicated, in the fixed
deterministic source order origin → destination → mode-specific field; the
list is nonempty and the status is not `ok`. -/
theorem rates_c3_missing_fields (cfg : Config) (resolve : Resolver) (now : ℤ)
    (dto : ManualQuoteRequestDto) (cache : DistCache) (m : ManualMode)
    (L : List String)
    (hmode : (estimateReq dto).mode = some m)
    (hs : sameLocation (estimateReq dto).origin (estimateReq dto).destination = false)
    (hL : L =
      (if (estimateReq dto).origin.isNone then ["origin"] else []) ++
      (if (estimateReq dto).destination.isNone then ["destination"] else []) ++
      (if modeFieldMissing resolve now cache m (estimateReq dto) then
        [modeRequiredField m] else []))
    (hne : L ≠ []) :
    ((estimate cfg resolve now dto cache).1).status =
      ManualQuoteStatus.needs_clarification ∧
    (estimate cfg resolve now dto cache).1.missingFields = some L ∧
    L.Nodup ∧
    (∀ f, f ∈ L ↔
      ((f = "origin" ∧ (estimateReq dto).origin.isNone = true) ∨
       (f = "destination" ∧ (estimateReq dto).destination.isNone = true) ∨
       (f = modeRequiredField m ∧
         modeFieldMissing resolve now cache m (estimateReq dto) = true))) ∧
    ((estimate cfg resolve now dto cache).1).status ≠ ManualQuoteStatus.ok := by
  have hml : missingList (estimateReq dto).mode (estimateReq dto)
      (groundStep resolve now (estimateReq dto).mode (estimateReq dto) cache).1 = L := by
    rw [hL, hmode]
    cases m <;> simp [missingList, modeFieldMissing, modeRequiredField, hmode]
  have hnd : L.Nodup := by
    rw [hL]
    exact missing_concat_nodup _ _ _ _ _ _
      (by cases m <;> decide) (by cases m <;> decide) (by cases m <;> decide)
  have hE : ¬(missingList (estimateReq dto).mode (estimateReq dto)
      (groundStep resolve now (estimateReq dto).mode (estimateReq dto) cache).1).isEmpty = true := by
    rw [List.isEmpty_iff, hml]
    exact hne
  refine ⟨?_, ?_, hnd, ?_, ?_⟩
  · simp [estimate, hs, hE]
  · simp only [estimate, hs, Bool.false_eq_true, if_false, hE]
    rw [hml, dedupFirst_eq_self hnd]
  · intro f
    rw [hL]
    exact missing_concat_mem _ _ _ _ _ _ _
  · simp [estimate, hs, hE]

/-- The concrete ocean request (destination and container type missing)
used by the C3 witness. -/
def c3WitnessDto : ManualQuoteRequestDto :=
  { mode := some ManualMode.ocean, origin := some "Lagos" }

/-- Witness for C3: ocean mode with destination and containerType missing
gives exactly `["destination", "containerType"]`. -/
theorem rates_c3_missing_fields_witness :
    ((estimate defaultConfig (fun _ => none) 0 c3WitnessDto ([] : DistCache)).1).status =
      ManualQuoteStatus.needs_clarification ∧
    (estimate defaultConfig (fun _ => none) 0 c3WitnessDto ([] : DistCache)).1.missingFields =
      some ["destination", "containerType"] ∧
    (["destination", "containerType"] : List String).Nodup ∧
    (∀ f, f ∈ (["destination", "containerType"] : List String) ↔
      ((f = "origin" ∧ (estimateReq c3WitnessDto).origin.isNone = true) ∨
       (f = "destination" ∧ (estimateReq c3WitnessDto).destination.isNone = true) ∨
       (f = modeRequiredField ManualMode.ocean ∧
         modeFieldMissing (fun _ => none) 0 ([] : DistCache) ManualMode.ocean
           (estimateReq c3WitnessDto) = true))) ∧
    ((estimate defaultConfig (fun _ => none) 0 c3WitnessDto ([] : DistCache)).1).status ≠
      ManualQuoteStatus.ok :=
  rates_c3_missing_fields defaultConfig (fun _ => none) 0 c3WitnessDto
    ([] : DistCache) ManualMode.ocean ["destination", "containerType"]
    (by decide) (by decide) (by decide) (by decide)

/-- The priced output of `calculate` does not depend on the
resolution-assumption strings: only `breakdown.assumptions` differs. -/
theorem calculate_price_irrel (cfg : Config) (m : ManualMode)
    (req : ManualQuoteRequestDto) (a1 a2 : List String) :
    (calculate cfg m req a1).breakdown.base = (calculate cfg m req a2).breakdown.base ∧
    (calculate cfg m req a1).breakdown.surcharges =
      (calculate cfg m req a2).breakdown.surcharges ∧
    (calculate cfg m req a1).breakdown.margin = (calculate cfg m req a2).breakdown.margin ∧
    (calculate cfg m req a1).breakdown.total = (calculate cfg m req a2).breakdown.total ∧
    (calculate cfg m req a1).mode = (calculate cfg m req a2).mode ∧
    (calculate cfg m req a1).origin = (calculate cfg m req a2).origin ∧
    (calculate cfg m req a1).destination = (calculate cfg m req a2).destination ∧
    (calculate cfg m req a1).chargeableWeightKg =
      (calculate cfg m req a2).chargeableWeightKg := by
  cases m <;> exact ⟨rfl, rfl, rfl, rfl, rfl, rfl, rfl, rfl⟩

/-- Claim C7: a ground estimate that resolved its distance writes a
24-hour cache entry; a second estimate for the same request before expiry
is served from the cache — its result does not depend on the resolver at
all (no provider call) — and yields the same priced output (breakdown
money fields, mode, endpoints, chargeable weight) as the original
cache-miss run that resolved the same distance. -/
theorem rates_c7_distance_cache (cfg : Config) (r1 : Resolver) (now1 now2 : ℤ)
    (dto : ManualQuoteRequestDto) (c0 : DistCache) (res : ResolvedDistance)
    (o d : String)
    (hmode : (estimateReq dto).mode = some ManualMode.ground)
    (ho : (estimateReq dto).origin = some o)
    (hd : (estimateReq dto).destination = some d)
    (hs : sameLocation (estimateReq dto).origin (estimateReq dto).destination = false)
    (hkm : (estimateReq dto).distanceKm = none)
    (hc0 : cacheGet c0
      (distanceCacheKey (estimateReq dto).origin (estimateReq dto).destination) = none)
    (hres : r1 (estimateReq dto) = some res)
    (hpos : 0 < res.distanceKm)
    (htime : now2 < now1 + 24 * 60 * 60 * 1000) :
    (estimate cfg r1 now1 dto c0).2 =
      cacheSet c0
        (distanceCacheKey (estimateReq dto).origin (estimateReq dto).destination)
        { distanceKm := res.distanceKm, durationHours := res.durationHours,
          expires := now1 + 24 * 60 * 60 * 1000 } ∧
    (∀ r2 r2' : Resolver,
      estimate cfg r2 now2 dto (estimate cfg r1 now1 dto c0).2 =
        estimate cfg r2' now2 dto (estimate cfg r1 now1 dto c0).2) ∧
    (∀ r2 : Resolver,
      (estimate cfg r2 now2 dto (estimate cfg r1 now1 dto c0).2).2 =
        (estimate cfg r1 now1 dto c0).2 ∧
      ((estimate cfg r2 now2 dto (estimate cfg r1 now1 dto c0).2).1).status =
        ManualQuoteStatus.ok ∧
      ((estimate cfg r1 now1 dto c0).1).status = ManualQuoteStatus.ok ∧
      ∃ q1 q2,
        (estimate cfg r1 now1 dto c0).1.quote = some q1 ∧
        (estimate cfg r2 now2 dto (estimate cfg r1 now1 dto c0).2).1.quote = some q2 ∧
        q2.breakdown.base = q1.breakdown.base ∧
        q2.breakdown.surcharges = q1.breakdown.surcharges ∧
        q2.breakdown.margin = q1.breakdown.margin ∧
        q2.breakdown.total = q1.breakdown.total ∧
        q2.mode = q1.mode ∧ q2.origin = q1.origin ∧ q2.destination = q1.destination ∧
        q2.chargeableWeightKg = q1.chargeableWeightKg) := by
  have hne0 : res.distanceKm ≠ 0 := hpos.ne'
  have hmlX : missingList (some ManualMode.ground) (estimateReq dto)
      { estimateReq dto with distanceKm := some res.distanceKm } = [] := by
    simp [missingList, ho, hd, distanceMissing, not_le.mpr hpos]
  have hg1 : groundStep r1 now1 (estimateReq dto).mode (estimateReq dto) c0 =
      ({ estimateReq dto with distanceKm := some res.distanceKm },
       cacheSet c0
         (distanceCacheKey (estimateReq dto).origin (estimateReq dto).destination)
         { distanceKm := res.distanceKm, durationHours := res.durationHours,
           expires := now1 + 24 * 60 * 60 * 1000 },
       ("Distance source: " ++ res.source ++ " (" ++ toString (round2 res.distanceKm) ++
          " km)") ::
         (match res.durationHours with
          | some dur => ["Drive time (estimate): " ++ toString (round2 dur) ++ " hours"]
          | none => [])) := by
    rw [hmode]
    unfold groundStep groundResolveStep groundProviderStep
    simp [hkm, hc0, hres, hne0]
  have hrun1 : estimate cfg r1 now1 dto c0 =
      ({ status := ManualQuoteStatus.ok, message := some okMessage,
         missingFields := none,
         quote := some (calculate cfg ManualMode.ground
           ({ estimateReq dto with distanceKm := some res.distanceKm })
           (("Distance source: " ++ res.source ++ " (" ++
              toString (round2 res.distanceKm) ++ " km)") ::
            (match res.durationHours with
             | some dur => ["Drive time (estimate): " ++ toString (round2 dur) ++ " hours"]
             | none => []))) },
       cacheSet c0
         (distanceCacheKey (estimateReq dto).origin (estimateReq dto).destination)
         { distanceKm := res.distanceKm, durationHours := res.durationHours,
           expires := now1 + 24 * 60 * 60 * 1000 }) := by
    simp only [estimate, hs, Bool.false_eq_true, if_false, hmode]
    rw [show (groundStep r1 now1 (some ManualMode.ground) (estimateReq dto) c0) =
      (groundStep r1 now1 (estimateReq dto).mode (estimateReq dto) c0) by rw [hmode]]
    rw [hg1]
    simp only [hmlX]
    simp [hmlX]
    rw [hmode]
  have hcget : cacheGet (estimate cfg r1 now1 dto c0).2
      (distanceCacheKey (estimateReq dto).origin (estimateReq dto).destination) =
      some { distanceKm := res.distanceKm, durationHours := res.durationHours,
             expires := now1 + 24 * 60 * 60 * 1000 } := by
    rw [hrun1]
    exact cacheGet_cacheSet_self _ _ _
  have hg2 : ∀ r2 : Resolver,
      groundStep r2 now2 (estimateReq dto).mode (estimateReq dto)
        (estimate cfg r1 now1 dto c0).2 =
      ({ estimateReq dto with distanceKm := some res.distanceKm },
       (estimate cfg r1 now1 dto c0).2,
       ["Distance source: cache (" ++ toString (round2 res.distanceKm) ++ " km)"]) := by
    intro r2
    have htime' : now2 < now1 + 86400000 := by linarith
    rw [hmode]
    unfold groundStep groundResolveStep
    simp [hkm, hcget, htime']
  have hrun2 : ∀ r2 : Resolver,
      estimate cfg r2 now2 dto (estimate cfg r1 now1 dto c0).2 =
      ({ status := ManualQuoteStatus.ok, message := some okMessage,
         missingFields := none,
         quote := some (calculate cfg ManualMode.ground
           ({ estimateReq dto with distanceKm := some res.distanceKm })
           ["Distance source: cache (" ++ toString (round2 res.distanceKm) ++ " km)"]) },
       (estimate cfg r1 now1 dto c0).2) := by
    intro r2
    have hg2r := hg2 r2
    set cfix := (estimate cfg r1 now1 dto c0).2 with hcfix
    simp only [estimate, hs, Bool.false_eq_true, if_false, hmode]
    rw [show (groundStep r2 now2 (some ManualMode.ground) (estimateReq dto) cfix) =
      (groundStep r2 now2 (estimateReq dto).mode (estimateReq dto) cfix) by rw [hmode]]
    rw [hg2r]
    simp [hmlX]
    rw [hmode]
  refine ⟨by rw [hrun1], fun r2 r2' => by rw [hrun2 r2, hrun2 r2'], fun r2 => ?_⟩
  obtain ⟨hb, hsur, hm, ht, hmo, hor, hde, hcw⟩ :=
    calculate_price_irrel cfg ManualMode.ground
      ({ estimateReq dto with distanceKm := some res.distanceKm })
      ["Distance source: cache (" ++ toString (round2 res.distanceKm) ++ " km)"]
      (("Distance source: " ++ res.source ++ " (" ++
         toString (round2 res.distanceKm) ++ " km)") ::
       (match res.durationHours with
        | some dur => ["Drive time (estimate): " ++ toString (round2 dur) ++ " hours"]
        | none => []))
  refine ⟨by rw [hrun2 r2], by rw [hrun2 r2], by rw [hrun1], ?_⟩
  exact ⟨_, _, by rw [hrun1], by rw [hrun2 r2], hb, hsur, hm, ht, hmo, hor, hde, hcw⟩

/-- The concrete ground request used by the C7 witness. -/
def c7WitnessDto : ManualQuoteRequestDto :=
  { mode := some ManualMode.ground, origin := some "Lagos",
    destination := some "Kano" }

/-- The provider result used by the C7 witness. -/
def c7Res : ResolvedDistance :=
  { distanceKm := 700, durationHours := some 9, source := "locationiq" }

/-- Witness for C7: Lagos → Kano, resolved to 700 km at time 0, re-queried
at time 1000 against an arbitrary second resolver (here: one that fails). -/
theorem rates_c7_distance_cache_witness :
    (estimate defaultConfig (fun _ => some c7Res) 0 c7WitnessDto ([] : DistCache)).2 =
      cacheSet ([] : DistCache)
        (distanceCacheKey (estimateReq c7WitnessDto).origin
          (estimateReq c7WitnessDto).destination)
        { distanceKm := c7Res.distanceKm, durationHours := c7Res.durationHours,
          expires := 0 + 24 * 60 * 60 * 1000 } ∧
    (∀ r2 r2' : Resolver,
      estimate defaultConfig r2 1000 c7WitnessDto
          (estimate defaultConfig (fun _ => some c7Res) 0 c7WitnessDto ([] : DistCache)).2 =
        estimate defaultConfig r2' 1000 c7WitnessDto
          (estimate defaultConfig (fun _ => some c7Res) 0 c7WitnessDto ([] : DistCache)).2) ∧
    (∀ r2 : Resolver,
      (estimate defaultConfig r2 1000 c7WitnessDto
          (estimate defaultConfig (fun _ => some c7Res) 0 c7WitnessDto ([] : DistCache)).2).2 =
        (estimate defaultConfig (fun _ => some c7Res) 0 c7WitnessDto ([] : DistCache)).2 ∧
      ((estimate defaultConfig r2 1000 c7WitnessDto
          (estimate defaultConfig (fun _ => some c7Res) 0 c7WitnessDto ([] : DistCache)).2).1).status =
        ManualQuoteStatus.ok ∧
      ((estimate defaultConfig (fun _ => some c7Res) 0 c7WitnessDto ([] : DistCache)).1).status =
        ManualQuoteStatus.ok ∧
      ∃ q1 q2,
        (estimate defaultConfig (fun _ => some c7Res) 0 c7WitnessDto ([] : DistCache)).1.quote =
          some q1 ∧
        (estimate defaultConfig r2 1000 c7WitnessDto
          (estimate defaultConfig (fun _ => some c7Res) 0 c7WitnessDto ([] : DistCache)).2).1.quote =
          some q2 ∧
        q2.breakdown.base = q1.breakdown.base ∧
        q2.breakdown.surcharges = q1.breakdown.surcharges ∧
        q2.breakdown.margin = q1.breakdown.margin ∧
        q2.breakdown.total = q1.breakdown.total ∧
        q2.mode = q1.mode ∧ q2.origin = q1.origin ∧ q2.destination = q1.destination ∧
        q2.chargeableWeightKg = q1.chargeableWeightKg) :=
  rates_c7_distance_cache defaultConfig (fun _ => some c7Res) 0 1000 c7WitnessDto
    ([] : DistCache) c7Res "Lagos" "Kano"
    (by decide) (by decide) (by decide) (by decide) (by decide) (by decide)
    rfl (by decide) (by decide)
